import Mathlib

/-!
# Gateway configuration store and legacy migration

A shallow embedding of `internal/storage/gateway_configuration.go` and
`internal/storage/gateway_profile.go`.

The Go functions receive a database handle (`sqlx.Execer`, `sqlx.Queryer`,
`sqlx.Ext`), read the clock, draw a random UUID and write to the logger.  Here
these become one explicit `World` value that every operation takes and returns:

* `store`   the rows of the tables the statements touch;
* `faults`  the pending outcome of the next statements (`true`: the engine
            reports a failure for that statement and changes nothing);
* `issued`  every statement handed to the handle, oldest first;
* `log`     the entries written to the logger, oldest first.

A pointer argument `c *T` becomes a value that the operation returns next to
the Go `error` (`none` is Go's `nil` error).
-/

namespace Storage

/-! ## Values -/

/-- An instant as the clock reports it (Go `time.Time`); the zero value is `0`. -/
abbrev Time := Nat

/-- ExtraChannel defines an extra channel for the gateway configuration.
Go slices are lists: a nil slice and an empty slice are both `[]`. -/
structure ExtraChannel where
  Modulation : String
  Frequency : Int
  Bandwidth : Int
  Bitrate : Int
  SpreadingFactors : List Int
deriving DecidableEq, Repr

/-- GatewayConfiguration defines a gateway configuration. -/
structure GatewayConfiguration where
  ID : String
  CreatedAt : Time
  UpdatedAt : Time
  Channels : List Int
  ExtraChannels : List ExtraChannel
deriving DecidableEq, Repr

/-- GatewayProfile defines a gateway-profile. -/
structure GatewayProfile where
  GatewayProfileID : String
  CreatedAt : Time
  UpdatedAt : Time
  Channels : List Int
  ExtraChannels : List ExtraChannel
deriving DecidableEq, Repr

/-- The Go zero value `var c GatewayConfiguration`. -/
def GatewayConfiguration.zero : GatewayConfiguration :=
  { ID := "", CreatedAt := 0, UpdatedAt := 0, Channels := [], ExtraChannels := [] }

/-! ## UUIDs (library `satori/go.uuid`) -/

/-- A UUID is sixteen bytes. -/
abbrev UUID := Fin 16 → Fin 256

/-- One lower-case hexadecimal digit. -/
def hexDigit (n : Nat) : Char :=
  if n < 10 then Char.ofNat (48 + n) else Char.ofNat (87 + n)

/-- Two hexadecimal digits per byte, as `hex.Encode` writes them. -/
def hexEncode : List (Fin 256) → List Char
  | [] => []
  | b :: bs => hexDigit (b.val / 16) :: hexDigit (b.val % 16) :: hexEncode bs

/-- The canonical text of a UUID, `xxxxxxxx-xxxx-xxxx-xxxx-xxxxxxxxxxxx`. -/
def UUID.String (u : UUID) : String :=
  ⟨hexEncode [u 0, u 1, u 2, u 3] ++ '-' :: hexEncode [u 4, u 5] ++ '-' ::
    hexEncode [u 6, u 7] ++ '-' :: hexEncode [u 8, u 9] ++ '-' ::
    hexEncode [u 10, u 11, u 12, u 13, u 14, u 15]⟩

/-! ## Errors -/

/-- What the driver reports when one statement does not go through. -/
inductive PgError where
  /-- The value `sql.ErrNoRows`: a single-row query matched nothing. -/
  | noRows
  /-- A primary key value is already in the table. -/
  | uniqueViolation
  /-- A referenced row is missing. -/
  | foreignKeyViolation
  /-- Any other failure of the engine or of the connection to it. -/
  | engineFailure
deriving DecidableEq, Repr

/-- The errors the storage package returns. -/
inductive Err where
  /-- The NotFound kind, Go `ErrDoesNotExist`. -/
  | ErrDoesNotExist
  /-- The ConstraintViolation kind. -/
  | ConstraintViolation
  /-- The StorageFailure kind: a lower-level error wrapped with a description. -/
  | StorageFailure (description : String)
  /-- An error wrapped once more by `errors.Wrap`. -/
  | Wrap (cause : Err) (description : String)
deriving DecidableEq, Repr

/-- Modelled from the spec: handlePSQLError, which the storage package defines
in a file that is not among the sources.  Section 7 of the specification: every
engine error is translated into NotFound, ConstraintViolation or StorageFailure;
the test of the package expects `ErrDoesNotExist` from a read that finds no
parent row. -/
def handlePSQLError (err : PgError) (description : String) : Err :=
  match err with
  | .noRows => .ErrDoesNotExist
  | .uniqueViolation => .ConstraintViolation
  | .foreignKeyViolation => .ConstraintViolation
  | .engineFailure => .StorageFailure description

/-! ## Tables -/

/-- A row of `gateway_configuration`. -/
structure ConfigurationRow where
  id : String
  created_at : Time
  updated_at : Time
  channels : List Int
deriving DecidableEq, Repr

/-- A row of `gateway_configuration_extra_channel`; `id` is the serial key the
engine assigns, which `order by id` sorts on. -/
structure ExtraChannelRow where
  id : Nat
  gateway_configuration_id : String
  modulation : String
  frequency : Int
  bandwidth : Int
  bitrate : Int
  spreading_factors : List Int
deriving DecidableEq, Repr

/-- A row of `gateway_profile`. -/
structure ProfileRow where
  gateway_profile_id : String
  created_at : Time
  updated_at : Time
  channels : List Int
deriving DecidableEq, Repr

/-- A row of `gateway_profile_extra_channel`. -/
structure ProfileExtraChannelRow where
  id : Nat
  gateway_profile_id : String
  modulation : String
  frequency : Int
  bandwidth : Int
  bitrate : Int
  spreading_factors : List Int
deriving DecidableEq, Repr

/-- A row of the legacy table `channel_configuration`. -/
structure ChannelConfigurationRow where
  id : Int
  name : String
  channels : List Int
deriving DecidableEq, Repr

/-- A row of the legacy table of extra channels. -/
structure LegacyExtraChannelRow where
  id : Nat
  channel_configuration_id : Int
  modulation : String
  frequency : Int
  bandwidth : Int
  bitrate : Int
  spread_factors : List Int
deriving DecidableEq, Repr

/-- A row of `gateway`, reduced to its key and the two references. -/
structure GatewayRow where
  mac : String
  channel_configuration_id : Option Int
  gateway_profile_id : Option String
deriving DecidableEq, Repr

/-- Modelled from the spec: the tables behind the handle (their DDL is not among
the sources).  Sections 3 and 4.1: a parent table keyed by a unique identifier,
a child table foreign-keyed to it whose rows carry an internal row sequence
number, and a delete of the parent that cascades to its child rows.  Each table
is the list of its rows; `*_seq` is the next value of the child table's serial
key. -/
structure Store where
  gateway_configuration : List ConfigurationRow
  gateway_configuration_extra_channel : List ExtraChannelRow
  gateway_configuration_extra_channel_seq : Nat
  gateway_profile : List ProfileRow
  gateway_profile_extra_channel : List ProfileExtraChannelRow
  gateway_profile_extra_channel_seq : Nat
  channel_configuration : List ChannelConfigurationRow
  extra_channel : List LegacyExtraChannelRow
  gateway : List GatewayRow
deriving DecidableEq, Repr

/-- The store with no row in any table. -/
def Store.empty : Store :=
  { gateway_configuration := [], gateway_configuration_extra_channel := [],
    gateway_configuration_extra_channel_seq := 1,
    gateway_profile := [], gateway_profile_extra_channel := [],
    gateway_profile_extra_channel_seq := 1,
    channel_configuration := [], extra_channel := [], gateway := [] }

/-- The statements the two source files send, with their parameters. -/
inductive Stmt where
  /-- The statement `insert into gateway_configuration (id, created_at, updated_at, channels)`. -/
  | insertGatewayConfiguration (id : String) (created_at updated_at : Time) (channels : List Int)
  /-- The statement `insert into gateway_configuration_extra_channel (...)`. -/
  | insertGatewayConfigurationExtraChannel (gateway_configuration_id modulation : String)
      (frequency bandwidth bitrate : Int) (spreading_factors : List Int)
  /-- The statement `select ... from gateway_configuration where id = $1`. -/
  | selectGatewayConfiguration (id : String)
  /-- The statement `select ... from gateway_configuration_extra_channel where
  gateway_configuration_id = $1 order by id`. -/
  | selectGatewayConfigurationExtraChannels (id : String)
  /-- The statement `update gateway_configuration set updated_at = $2, channels = $3 where id = $1`. -/
  | updateGatewayConfiguration (id : String) (updated_at : Time) (channels : List Int)
  /-- The statement `delete from gateway_configuration_extra_channel where
  gateway_configuration_id = $1`. -/
  | deleteGatewayConfigurationExtraChannels (id : String)
  /-- The statement `delete from gateway_configuration where id = $1`. -/
  | deleteGatewayConfiguration (id : String)
  /-- The statement `insert into gateway_profile (...)`. -/
  | insertGatewayProfile (gateway_profile_id : String) (created_at updated_at : Time)
      (channels : List Int)
  /-- The statement `insert into gateway_profile_extra_channel (...)`. -/
  | insertGatewayProfileExtraChannel (gateway_profile_id modulation : String)
      (frequency bandwidth bitrate : Int) (spreading_factors : List Int)
  /-- The statement `select id, name from channel_configuration`. -/
  | selectChannelConfigurations
  /-- The read behind `gateway.GetChannelConfiguration`. -/
  | selectChannelConfiguration (id : Int)
  /-- The read behind `gateway.GetExtraChannelsForChannelConfigurationID`. -/
  | selectExtraChannels (id : Int)
  /-- The statement `update gateway set gateway_profile_id = $2 where
  channel_configuration_id = $1`. -/
  | updateGatewayProfileID (channel_configuration_id : Int) (gateway_profile_id : String)
deriving DecidableEq, Repr

/-- One entry of the logger: its fields and its message. -/
structure LogEntry where
  fields : List (String × String)
  message : String
deriving DecidableEq, Repr

/-- Everything an operation reads and writes besides its arguments. -/
structure World where
  store : Store
  faults : List Bool
  issued : List Stmt
  log : List LogEntry
deriving DecidableEq, Repr

/-- The same world with a handle on which no statement is made to fail. -/
def World.healthy (w : World) : World := { w with faults := [] }

/-- The value `sql.Result` of a statement that went through. -/
structure Result where
  rows : Nat
deriving DecidableEq, Repr

/-- The method `RowsAffected` of a result; the `lib/pq` driver always answers. -/
def Result.RowsAffected (r : Result) : Except PgError Nat := .ok r.rows

/-! ## The engine: what each statement does to the tables -/

/-- Insert of a parent row: the identifier must be new. -/
def Store.insertGatewayConfiguration (s : Store) (row : ConfigurationRow) :
    Except PgError (Store × Nat) :=
  if s.gateway_configuration.any (fun r => r.id == row.id) then .error .uniqueViolation
  else .ok ({ s with gateway_configuration := s.gateway_configuration ++ [row] }, 1)

/-- Insert of a child row: the parent must exist; the row gets the next serial key. -/
def Store.insertGatewayConfigurationExtraChannel (s : Store) (cid : String) (ec : ExtraChannel) :
    Except PgError (Store × Nat) :=
  if s.gateway_configuration.any (fun r => r.id == cid) then
    .ok ({ s with
            gateway_configuration_extra_channel := s.gateway_configuration_extra_channel ++
              [{ id := s.gateway_configuration_extra_channel_seq,
                 gateway_configuration_id := cid,
                 modulation := ec.Modulation, frequency := ec.Frequency,
                 bandwidth := ec.Bandwidth, bitrate := ec.Bitrate,
                 spreading_factors := ec.SpreadingFactors }],
            gateway_configuration_extra_channel_seq :=
              s.gateway_configuration_extra_channel_seq + 1 }, 1)
  else .error .foreignKeyViolation

/-- Update of the parent rows with the given identifier; `created_at` is not in
the `set` list. -/
def Store.updateGatewayConfiguration (s : Store) (id : String) (updated_at : Time)
    (channels : List Int) : Except PgError (Store × Nat) :=
  .ok ({ s with gateway_configuration := s.gateway_configuration.map fun r =>
          if r.id == id then { r with updated_at := updated_at, channels := channels } else r },
        (s.gateway_configuration.filter (fun r => r.id == id)).length)

/-- Delete of the child rows of one parent. -/
def Store.deleteGatewayConfigurationExtraChannels (s : Store) (id : String) :
    Except PgError (Store × Nat) :=
  let kept := s.gateway_configuration_extra_channel.filter
    (fun r => r.gateway_configuration_id != id)
  let gone := s.gateway_configuration_extra_channel.filter
    (fun r => r.gateway_configuration_id == id)
  .ok ({ s with gateway_configuration_extra_channel := kept }, gone.length)

/-- The child rows that survive the delete of the parent rows `gone`: the
cascade removes every child row that references one of them. -/
def cascade (gone : List ConfigurationRow) (rows : List ExtraChannelRow) : List ExtraChannelRow :=
  rows.filter fun r => !(gone.any fun p => p.id == r.gateway_configuration_id)

/-- Delete of the parent rows with the given identifier, cascading to their
child rows; the count is that of the parent rows. -/
def Store.deleteGatewayConfiguration (s : Store) (id : String) : Except PgError (Store × Nat) :=
  let gone := s.gateway_configuration.filter (fun r => r.id == id)
  .ok ({ s with
          gateway_configuration := s.gateway_configuration.filter (fun r => r.id != id),
          gateway_configuration_extra_channel :=
            cascade gone s.gateway_configuration_extra_channel },
        gone.length)

/-- Insert of a profile row: the identifier must be new. -/
def Store.insertGatewayProfile (s : Store) (row : ProfileRow) : Except PgError (Store × Nat) :=
  if s.gateway_profile.any (fun r => r.gateway_profile_id == row.gateway_profile_id) then
    .error .uniqueViolation
  else .ok ({ s with gateway_profile := s.gateway_profile ++ [row] }, 1)

/-- Insert of a profile child row: the profile must exist. -/
def Store.insertGatewayProfileExtraChannel (s : Store) (pid : String) (ec : ExtraChannel) :
    Except PgError (Store × Nat) :=
  if s.gateway_profile.any (fun r => r.gateway_profile_id == pid) then
    .ok ({ s with
            gateway_profile_extra_channel := s.gateway_profile_extra_channel ++
              [{ id := s.gateway_profile_extra_channel_seq,
                 gateway_profile_id := pid,
                 modulation := ec.Modulation, frequency := ec.Frequency,
                 bandwidth := ec.Bandwidth, bitrate := ec.Bitrate,
                 spreading_factors := ec.SpreadingFactors }],
            gateway_profile_extra_channel_seq := s.gateway_profile_extra_channel_seq + 1 }, 1)
  else .error .foreignKeyViolation

/-- Repointing of the gateways of one legacy configuration. -/
def Store.updateGatewayProfileID (s : Store) (ccid : Int) (pid : String) :
    Except PgError (Store × Nat) :=
  .ok ({ s with gateway := s.gateway.map fun g =>
          if g.channel_configuration_id == some ccid then { g with gateway_profile_id := some pid }
          else g },
        (s.gateway.filter (fun g => g.channel_configuration_id == some ccid)).length)

/-- What a statement handed to `Exec` does; a query changes nothing. -/
def Store.exec (s : Store) : Stmt → Except PgError (Store × Nat)
  | .insertGatewayConfiguration id created_at updated_at channels =>
      s.insertGatewayConfiguration
        { id := id, created_at := created_at, updated_at := updated_at, channels := channels }
  | .insertGatewayConfigurationExtraChannel cid modulation frequency bandwidth bitrate sf =>
      s.insertGatewayConfigurationExtraChannel cid
        { Modulation := modulation, Frequency := frequency, Bandwidth := bandwidth,
          Bitrate := bitrate, SpreadingFactors := sf }
  | .updateGatewayConfiguration id updated_at channels =>
      s.updateGatewayConfiguration id updated_at channels
  | .deleteGatewayConfigurationExtraChannels id => s.deleteGatewayConfigurationExtraChannels id
  | .deleteGatewayConfiguration id => s.deleteGatewayConfiguration id
  | .insertGatewayProfile id created_at updated_at channels =>
      s.insertGatewayProfile
        { gateway_profile_id := id, created_at := created_at, updated_at := updated_at,
          channels := channels }
  | .insertGatewayProfileExtraChannel pid modulation frequency bandwidth bitrate sf =>
      s.insertGatewayProfileExtraChannel pid
        { Modulation := modulation, Frequency := frequency, Bandwidth := bandwidth,
          Bitrate := bitrate, SpreadingFactors := sf }
  | .updateGatewayProfileID ccid pid => s.updateGatewayProfileID ccid pid
  | _ => .ok (s, 0)

/-- The single parent row a `QueryRowx` reads, or `sql.ErrNoRows`. -/
def Store.selectGatewayConfiguration (s : Store) (id : String) :
    Except PgError ConfigurationRow :=
  match s.gateway_configuration.find? (fun r => r.id == id) with
  | some row => .ok row
  | none => .error .noRows

/-- The child rows of one parent, `order by id`. -/
def Store.selectGatewayConfigurationExtraChannels (s : Store) (id : String) :
    List ExtraChannelRow :=
  (s.gateway_configuration_extra_channel.filter
    (fun r => r.gateway_configuration_id == id)).insertionSort (fun a b => a.id ≤ b.id)

/-! ## The handle -/

/-- Whether the engine fails on the next statement: the head of `faults`. -/
def World.fails (w : World) : Bool := w.faults.head? == some true

/-- Hand one statement to the handle: it is recorded and its entry of `faults`
is used up. -/
def World.issue (w : World) (st : Stmt) : World :=
  { w with faults := w.faults.tail, issued := w.issued ++ [st] }

/-- The method `Exec` of the handle. -/
def World.Exec (w : World) (st : Stmt) : Except PgError Result × World :=
  if w.fails then (.error .engineFailure, w.issue st)
  else
    match w.store.exec st with
    | .error e => (.error e, w.issue st)
    | .ok (s, n) => (.ok { rows := n }, { w.issue st with store := s })

/-- The call `QueryRowx(...).Scan(...)` on `gateway_configuration`. -/
def World.QueryRowx (w : World) (id : String) : Except PgError ConfigurationRow × World :=
  if w.fails then (.error .engineFailure, w.issue (.selectGatewayConfiguration id))
  else (w.store.selectGatewayConfiguration id, w.issue (.selectGatewayConfiguration id))

/-- The call `Query` on `gateway_configuration_extra_channel`. -/
def World.Query (w : World) (id : String) : Except PgError (List ExtraChannelRow) × World :=
  if w.fails then (.error .engineFailure, w.issue (.selectGatewayConfigurationExtraChannels id))
  else (.ok (w.store.selectGatewayConfigurationExtraChannels id),
        w.issue (.selectGatewayConfigurationExtraChannels id))

/-- The call `rows.Scan` of one child row into an `ExtraChannel`; the columns
have the types of the fields, so it goes through. -/
def scanExtraChannel (r : ExtraChannelRow) : Except PgError ExtraChannel :=
  .ok { Modulation := r.modulation, Frequency := r.frequency, Bandwidth := r.bandwidth,
        Bitrate := r.bitrate, SpreadingFactors := r.spreading_factors }

/-! ## gateway_configuration.go -/

/-- The loop `for _, ec := range c.ExtraChannels` of Create and Update: one
insert per element, in list order, stopping at the first error. -/
def insertExtraChannels (w : World) (id : String) : List ExtraChannel → World × Option Err
  | [] => (w, none)
  | ec :: rest =>
    match w.Exec (.insertGatewayConfigurationExtraChannel id ec.Modulation ec.Frequency
        ec.Bandwidth ec.Bitrate ec.SpreadingFactors) with
    | (.error e, w1) => (w1, some (handlePSQLError e "insert error"))
    | (.ok _, w1) => insertExtraChannels w1 id rest

/-- CreateGatewayConfiguration creates the given gateway configuration.
`now` is what `time.Now()` returns and `u` what `uuid.NewV4()` returns. -/
def CreateGatewayConfiguration (w : World) (now : Time) (u : UUID) (c : GatewayConfiguration) :
    World × GatewayConfiguration × Option Err :=
  let c := { c with CreatedAt := now }
  let c := { c with UpdatedAt := now }
  let c := if c.ID = "" then { c with ID := u.String } else c
  match w.Exec (.insertGatewayConfiguration c.ID c.CreatedAt c.UpdatedAt c.Channels) with
  | (.error e, w1) => (w1, c, some (handlePSQLError e "insert error"))
  | (.ok _, w1) =>
    match insertExtraChannels w1 c.ID c.ExtraChannels with
    | (w2, some e) => (w2, c, some e)
    | (w2, none) =>
      ({ w2 with log := w2.log ++ [{ fields := [("id", c.ID)],
                                     message := "gateway configuration created" }] }, c, none)

/-- The loop `for rows.Next()` of Get: scan each row and append it. -/
def scanExtraChannels (c : GatewayConfiguration) :
    List ExtraChannelRow → GatewayConfiguration × Option Err
  | [] => (c, none)
  | r :: rest =>
    match scanExtraChannel r with
    | .error e => (c, some (handlePSQLError e "select error"))
    | .ok ec => scanExtraChannels { c with ExtraChannels := c.ExtraChannels ++ [ec] } rest

/-- GetGatewayConfiguration returns the gateway configuration matching the
given ID. -/
def GetGatewayConfiguration (w : World) (id : String) :
    World × GatewayConfiguration × Option Err :=
  let c := GatewayConfiguration.zero
  match w.QueryRowx id with
  | (.error e, w1) => (w1, c, some (handlePSQLError e "select error"))
  | (.ok row, w1) =>
    let c := { c with ID := row.id, CreatedAt := row.created_at, UpdatedAt := row.updated_at,
                      Channels := row.channels }
    match w1.Query id with
    | (.error e, w2) => (w2, c, some (handlePSQLError e "select error"))
    | (.ok rows, w2) =>
      match scanExtraChannels c rows with
      | (c, err) => (w2, c, err)

/-- UpdateGatewayConfiguration updates the given gateway configuration. -/
def UpdateGatewayConfiguration (w : World) (now : Time) (c : GatewayConfiguration) :
    World × GatewayConfiguration × Option Err :=
  let c := { c with UpdatedAt := now }
  match w.Exec (.updateGatewayConfiguration c.ID c.UpdatedAt c.Channels) with
  | (.error e, w1) => (w1, c, some (handlePSQLError e "update error"))
  | (.ok res, w1) =>
    match res.RowsAffected with
    | .error e => (w1, c, some (handlePSQLError e "get rows affected error"))
    | .ok ra =>
      if ra = 0 then (w1, c, some .ErrDoesNotExist)
      else
        match w1.Exec (.deleteGatewayConfigurationExtraChannels c.ID) with
        | (.error e, w2) => (w2, c, some (handlePSQLError e "delete error"))
        | (.ok _, w2) =>
          match insertExtraChannels w2 c.ID c.ExtraChannels with
          | (w3, some e) => (w3, c, some e)
          | (w3, none) =>
            ({ w3 with log := w3.log ++ [{ fields := [("id", c.ID)],
                                           message := "gateway configuration updated" }] },
             c, none)

/-- DeleteGatewayConfiguration deletes the gateway-configuration matching the
given ID. -/
def DeleteGatewayConfiguration (w : World) (id : String) : World × Option Err :=
  match w.Exec (.deleteGatewayConfiguration id) with
  | (.error e, w1) => (w1, some (handlePSQLError e "delete error"))
  | (.ok res, w1) =>
    match res.RowsAffected with
    | .error e => (w1, some (handlePSQLError e "get rows affected error"))
    | .ok ra =>
      if ra = 0 then (w1, some .ErrDoesNotExist)
      else
        ({ w1 with log := w1.log ++ [{ fields := [("id", id)],
                                       message := "gateway configuration deleted" }] }, none)

/-! ## gateway_profile.go -/

/-- The loop `for _, ec := range c.ExtraChannels` of CreateGatewayProfile. -/
def insertProfileExtraChannels (w : World) (id : String) : List ExtraChannel → World × Option Err
  | [] => (w, none)
  | ec :: rest =>
    match w.Exec (.insertGatewayProfileExtraChannel id ec.Modulation ec.Frequency
        ec.Bandwidth ec.Bitrate ec.SpreadingFactors) with
    | (.error e, w1) => (w1, some (handlePSQLError e "insert error"))
    | (.ok _, w1) => insertProfileExtraChannels w1 id rest

/-- CreateGatewayProfile creates the given gateway-profile. -/
def CreateGatewayProfile (w : World) (now : Time) (u : UUID) (c : GatewayProfile) :
    World × GatewayProfile × Option Err :=
  let c := { c with CreatedAt := now }
  let c := { c with UpdatedAt := now }
  let c := if c.GatewayProfileID = "" then { c with GatewayProfileID := u.String } else c
  match w.Exec (.insertGatewayProfile c.GatewayProfileID c.CreatedAt c.UpdatedAt c.Channels) with
  | (.error e, w1) => (w1, c, some (handlePSQLError e "insert error"))
  | (.ok _, w1) =>
    match insertProfileExtraChannels w1 c.GatewayProfileID c.ExtraChannels with
    | (w2, some e) => (w2, c, some e)
    | (w2, none) =>
      ({ w2 with log := w2.log ++ [{ fields := [("gateway_profile_id", c.GatewayProfileID)],
                                     message := "gateway-profile created" }] }, c, none)

/-- A Go `map[string]string`; `none` is the nil map that `var out map[string]string`
declares, `some kvs` an allocated map with the entries `kvs`. -/
abbrev GoMap := Option (List (String × String))

/-- The builtin `len` of a map. -/
def GoMap.len : GoMap → Nat
  | none => 0
  | some kvs => kvs.length

/-- The assignment `m[k] = v`: a run-time panic on the nil map, otherwise the
entry for `k` is set. -/
def GoMap.assign (m : GoMap) (k v : String) : Option GoMap :=
  match m with
  | none => none
  | some kvs => some (some (kvs.filter (fun kv => kv.1 != k) ++ [(k, v)]))

/-- How a call ends: it returns, or the goroutine panics. -/
inductive Outcome (α : Type) where
  | returned (w : World) (a : α)
  | panicked (w : World) (message : String)
deriving DecidableEq, Repr

/-- The call `sqlx.Select(db, &configMigrate, "select id, name from channel_configuration")`. -/
def World.Select (w : World) : Except PgError (List (Int × String)) × World :=
  if w.fails then (.error .engineFailure, w.issue .selectChannelConfigurations)
  else (.ok (w.store.channel_configuration.map fun r => (r.id, r.name)),
        w.issue .selectChannelConfigurations)

/-- Modelled from the spec: gateway.GetChannelConfiguration, of the package
`internal/gateway`, which is not among the sources.  Section 6: given a legacy
identifier, return its channel list, or a NotFound or StorageFailure error. -/
def GetChannelConfiguration (w : World) (id : Int) :
    Except Err ChannelConfigurationRow × World :=
  if w.fails then (.error (.StorageFailure "select error"), w.issue (.selectChannelConfiguration id))
  else
    match w.store.channel_configuration.find? (fun r => r.id == id) with
    | some row => (.ok row, w.issue (.selectChannelConfiguration id))
    | none => (.error .ErrDoesNotExist, w.issue (.selectChannelConfiguration id))

/-- Modelled from the spec: gateway.GetExtraChannelsForChannelConfigurationID, of
the package `internal/gateway`, which is not among the sources.  Section 6:
given a legacy identifier, return its extra-channel list, or a StorageFailure
error. -/
def GetExtraChannelsForChannelConfigurationID (w : World) (id : Int) :
    Except Err (List LegacyExtraChannelRow) × World :=
  if w.fails then (.error (.StorageFailure "select error"), w.issue (.selectExtraChannels id))
  else
    (.ok ((w.store.extra_channel.filter (fun r => r.channel_configuration_id == id)).insertionSort
      (fun a b => a.id ≤ b.id)), w.issue (.selectExtraChannels id))

/-- The inner loop `for i := range ec` of the migration: the legacy extra
channels appended field for field. -/
def appendLegacyExtraChannels (gp : GatewayProfile) : List LegacyExtraChannelRow → GatewayProfile
  | [] => gp
  | e :: rest =>
    appendLegacyExtraChannels
      { gp with ExtraChannels := gp.ExtraChannels ++
          [{ Modulation := e.modulation, Frequency := e.frequency, Bandwidth := e.bandwidth,
             Bitrate := e.bitrate, SpreadingFactors := e.spread_factors }] } rest

/-- The loop `for _, cm := range configMigrate` of the migration.  `k` counts the
rows already handled; the `k`-th CreateGatewayProfile reads the clock as
`clock k` and draws the UUID `uuids k`. -/
def migrateLoop (clock : Nat → Time) (uuids : Nat → UUID) :
    World → GoMap → Nat → List (Int × String) → Outcome (GoMap × Option Err)
  | w, out, _, [] => .returned w (out, none)
  | w, out, k, cm :: rest =>
    match GetChannelConfiguration w cm.1 with
    | (.error e, w1) => .returned w1 (none, some (.Wrap e "get channel configuration error"))
    | (.ok cc, w1) =>
      match GetExtraChannelsForChannelConfigurationID w1 cm.1 with
      | (.error e, w2) =>
        .returned w2 (none, some (.Wrap e "get extra channels for channel configuration error"))
      | (.ok ec, w2) =>
        let gp : GatewayProfile :=
          { GatewayProfileID := "", CreatedAt := 0, UpdatedAt := 0, Channels := cc.channels,
            ExtraChannels := [] }
        let gp := appendLegacyExtraChannels gp ec
        match CreateGatewayProfile w2 (clock k) (uuids k) gp with
        | (w3, _, some e) => .returned w3 (none, some (.Wrap e "create gateway-profile error"))
        | (w3, gp, none) =>
          match w3.Exec (.updateGatewayProfileID cm.1 gp.GatewayProfileID) with
          | (.error e, w4) => .returned w4 (none, some (handlePSQLError e "update error"))
          | (.ok _, w4) =>
            match out.assign gp.GatewayProfileID cm.2 with
            | none => .panicked w4 "assignment to entry in nil map"
            | some out1 => migrateLoop clock uuids w4 out1 (k + 1) rest

/-- MigrateChannelConfigurationToGatewayProfile migrates the channel configuration. -/
def MigrateChannelConfigurationToGatewayProfile (w : World) (clock : Nat → Time)
    (uuids : Nat → UUID) : Outcome (GoMap × Option Err) :=
  let out : GoMap := none
  match w.Select with
  | (.error e, w1) => .returned w1 (none, some (handlePSQLError e "select error"))
  | (.ok configMigrate, w1) => migrateLoop clock uuids w1 out 0 configMigrate

/-! ## Vocabulary of the statements proved below -/

/-- The child rows that inserting `ecs` under `id` creates when the serial key
stands at `seq`: one row per element, in list order, with consecutive keys. -/
def extraChannelRows (seq : Nat) (id : String) : List ExtraChannel → List ExtraChannelRow
  | [] => []
  | ec :: rest =>
    { id := seq, gateway_configuration_id := id, modulation := ec.Modulation,
      frequency := ec.Frequency, bandwidth := ec.Bandwidth, bitrate := ec.Bitrate,
      spreading_factors := ec.SpreadingFactors } :: extraChannelRows (seq + 1) id rest

/-- The insert statements of the child rows of `ecs` under `id`, in list order. -/
def insertExtraChannelStmts (id : String) (ecs : List ExtraChannel) : List Stmt :=
  ecs.map fun ec => .insertGatewayConfigurationExtraChannel id ec.Modulation ec.Frequency
    ec.Bandwidth ec.Bitrate ec.SpreadingFactors

/-- The extra channel a child row holds. -/
def ExtraChannelRow.toExtraChannel (r : ExtraChannelRow) : ExtraChannel :=
  { Modulation := r.modulation, Frequency := r.frequency, Bandwidth := r.bandwidth,
    Bitrate := r.bitrate, SpreadingFactors := r.spreading_factors }

/-- What the store holds for one identifier: its first parent row and its child
rows in table order. -/
def Store.view (s : Store) (id : String) : Option ConfigurationRow × List ExtraChannelRow :=
  (s.gateway_configuration.find? (fun r => r.id == id),
   s.gateway_configuration_extra_channel.filter (fun r => r.gateway_configuration_id == id))

/-- The answer of a read of `id` computed from the view of `id` alone. -/
def readView (v : Option ConfigurationRow × List ExtraChannelRow) :
    GatewayConfiguration × Option Err :=
  match v.1 with
  | none => (GatewayConfiguration.zero, some .ErrDoesNotExist)
  | some row =>
    ({ ID := row.id, CreatedAt := row.created_at, UpdatedAt := row.updated_at,
       Channels := row.channels,
       ExtraChannels := (v.2.insertionSort (fun a b => a.id ≤ b.id)).map
         ExtraChannelRow.toExtraChannel }, none)

/-- Referential integrity of the child table: every child row has a parent row. -/
def Store.Valid (s : Store) : Prop :=
  ∀ r ∈ s.gateway_configuration_extra_channel,
    ∃ p ∈ s.gateway_configuration, p.id = r.gateway_configuration_id

/-- The identifier has a parent row. -/
def Store.Present (s : Store) (id : String) : Prop :=
  ∃ p ∈ s.gateway_configuration, p.id = id

instance Store.decidableValid (s : Store) : Decidable s.Valid := by
  unfold Store.Valid
  infer_instance

instance Store.decidablePresent (s : Store) (id : String) : Decidable (s.Present id) := by
  unfold Store.Present
  infer_instance

/-- The value Create leaves with its caller: the timestamps are the clock
reading, the identifier is the caller's unless that was empty. -/
def createdValue (now : Time) (u : UUID) (c : GatewayConfiguration) : GatewayConfiguration :=
  { ID := if c.ID = "" then u.String else c.ID, CreatedAt := now, UpdatedAt := now,
    Channels := c.Channels, ExtraChannels := c.ExtraChannels }

/-- The log entry of a successful operation on `id`. -/
def logEntry (id message : String) : LogEntry := { fields := [("id", id)], message := message }

/-- The statement can only write rows of the configuration `id` (or rows of
tables other than the two configuration tables). -/
def Stmt.writesOnly (id : String) : Stmt → Prop
  | .insertGatewayConfiguration i _ _ _ => i = id
  | .insertGatewayConfigurationExtraChannel i _ _ _ _ _ => i = id
  | .updateGatewayConfiguration i _ _ => i = id
  | .deleteGatewayConfigurationExtraChannels i => i = id
  | .deleteGatewayConfiguration i => i = id
  | _ => True

/-! ## Concrete inputs -/

/-- The UUID `00112233-4455-6677-8899-aabbccddeeff`. -/
def exampleUUID : UUID := fun i => ⟨i.val * 17 % 256, Nat.mod_lt _ (by decide)⟩

/-- The first extra channel of the test of the package. -/
def exampleChannelA : ExtraChannel :=
  { Modulation := "LORA", Frequency := 868700000, Bandwidth := 125, Bitrate := 0,
    SpreadingFactors := [10, 11, 12] }

/-- The second extra channel of the test of the package. -/
def exampleChannelB : ExtraChannel :=
  { Modulation := "LORA", Frequency := 868900000, Bandwidth := 125, Bitrate := 50000,
    SpreadingFactors := [] }

/-- The configuration the test of the package creates. -/
def exampleConfiguration : GatewayConfiguration :=
  { ID := "", CreatedAt := 0, UpdatedAt := 0, Channels := [0, 1, 2],
    ExtraChannels := [exampleChannelA, exampleChannelB] }

/-- A clean database behind a handle on which every statement goes through. -/
def cleanWorld : World := { store := Store.empty, faults := [], issued := [], log := [] }

/-- The world after the test of the package has created its configuration at
clock reading `5`. -/
def createdWorld : World := (CreateGatewayConfiguration cleanWorld 5 exampleUUID exampleConfiguration).1

/-- The value the test of the package holds after its Create. -/
def createdConfiguration : GatewayConfiguration :=
  createdValue 5 exampleUUID exampleConfiguration

/-- The value the test of the package passes to Update: fewer channels and the
two extra channels in the other order. -/
def exampleUpdate : GatewayConfiguration :=
  { createdConfiguration with Channels := [0, 1],
                              ExtraChannels := [exampleChannelB, exampleChannelA] }

/-- The world after the test of the package has updated its configuration at
clock reading `9`. -/
def updatedWorld : World := (UpdateGatewayConfiguration createdWorld 9 exampleUpdate).1

/-- The world after the test of the package has deleted its configuration. -/
def deletedWorld : World := (DeleteGatewayConfiguration createdWorld createdConfiguration.ID).1

/-- The world of the package test after its Create, behind a handle that fails
on the second statement it is handed. -/
def faultyWorld : World := { createdWorld with faults := [false, true] }

/-- A configuration that asks for the identifier `other`. -/
def otherConfiguration : GatewayConfiguration := { exampleConfiguration with ID := "other" }

/-- A database with one legacy channel configuration, one legacy extra channel
of it and one gateway that references it, behind a handle on which every
statement goes through. -/
def legacyWorld : World :=
  { store := { Store.empty with
      channel_configuration := [{ id := 1, name := "eu868", channels := [0, 1, 2] }]
      extra_channel := [{ id := 1, channel_configuration_id := 1, modulation := "LORA",
                          frequency := 867100000, bandwidth := 125, bitrate := 0,
                          spread_factors := [7, 8] }]
      gateway := [{ mac := "0102030405060708", channel_configuration_id := some 1,
                    gateway_profile_id := none }] },
    faults := [], issued := [], log := [] }

/-! ## Theorems -/

/-! ### The handle -/

theorem Exec_issued (w : World) (st : Stmt) : (w.Exec st).2.issued = w.issued ++ [st] := by
  unfold World.Exec World.issue
  split
  · rfl
  · split <;> rfl

theorem Exec_log (w : World) (st : Stmt) : (w.Exec st).2.log = w.log := by
  unfold World.Exec World.issue
  split
  · rfl
  · split <;> rfl

theorem Exec_faults (w : World) (st : Stmt) : (w.Exec st).2.faults = w.faults.tail := by
  unfold World.Exec World.issue
  split
  · rfl
  · split <;> rfl

theorem Exec_error (w : World) (st : Stmt) (e : PgError) (w1 : World)
    (h : w.Exec st = (.error e, w1)) : w1 = w.issue st := by
  unfold World.Exec at h
  split at h
  · cases h; rfl
  · split at h
    · cases h; rfl
    · cases h

theorem Exec_ok (w : World) (st : Stmt) (r : Result) (w1 : World)
    (h : w.Exec st = (.ok r, w1)) :
    w.fails = false ∧ w.store.exec st = .ok (w1.store, r.rows) ∧
      w1 = { w.issue st with store := w1.store } := by
  unfold World.Exec at h
  split at h
  · cases h
  · rename_i hf
    split at h
    · cases h
    · rename_i s n hs
      cases h
      exact ⟨by simpa using hf, hs, rfl⟩

/-! ### The rows of an insert loop -/

theorem extraChannelRows_gid (id : String) (ecs : List ExtraChannel) (seq : Nat) :
    ∀ r ∈ extraChannelRows seq id ecs, r.gateway_configuration_id = id := by
  induction ecs generalizing seq with
  | nil => simp [extraChannelRows]
  | cons ec rest ih =>
    intro r hr
    simp only [extraChannelRows, List.mem_cons] at hr
    rcases hr with rfl | hr
    · rfl
    · exact ih _ r hr

theorem extraChannelRows_ge (id : String) (ecs : List ExtraChannel) (seq : Nat) :
    ∀ r ∈ extraChannelRows seq id ecs, seq ≤ r.id := by
  induction ecs generalizing seq with
  | nil => simp [extraChannelRows]
  | cons ec rest ih =>
    intro r hr
    simp only [extraChannelRows, List.mem_cons] at hr
    rcases hr with rfl | hr
    · exact le_refl _
    · exact Nat.le_of_succ_le (ih _ r hr)

theorem extraChannelRows_sorted (id : String) (ecs : List ExtraChannel) (seq : Nat) :
    (extraChannelRows seq id ecs).Sorted (fun a b => a.id ≤ b.id) := by
  induction ecs generalizing seq with
  | nil => simp [extraChannelRows]
  | cons ec rest ih =>
    simp only [extraChannelRows, List.sorted_cons]
    refine ⟨fun r hr => ?_, ih _⟩
    exact Nat.le_of_succ_le (extraChannelRows_ge id rest (seq + 1) r hr)

theorem extraChannelRows_map (id : String) (ecs : List ExtraChannel) (seq : Nat) :
    (extraChannelRows seq id ecs).map ExtraChannelRow.toExtraChannel = ecs := by
  induction ecs generalizing seq with
  | nil => rfl
  | cons ec rest ih =>
    simp only [extraChannelRows, List.map_cons, ih]
    rfl

theorem extraChannelRows_filter_self (id : String) (ecs : List ExtraChannel) (seq : Nat) :
    (extraChannelRows seq id ecs).filter (fun r => r.gateway_configuration_id == id) =
      extraChannelRows seq id ecs := by
  rw [List.filter_eq_self]
  intro r hr
  simpa using extraChannelRows_gid id ecs seq r hr

theorem extraChannelRows_filter_other (id id1 : String) (h : id ≠ id1) (ecs : List ExtraChannel)
    (seq : Nat) :
    (extraChannelRows seq id ecs).filter (fun r => r.gateway_configuration_id == id1) = [] := by
  rw [List.filter_eq_nil_iff]
  intro r hr
  have := extraChannelRows_gid id ecs seq r hr
  simp [this, h]

theorem readView_extraChannelRows (row : ConfigurationRow) (id : String)
    (ecs : List ExtraChannel) (seq : Nat) :
    readView (some row, extraChannelRows seq id ecs) =
      ({ ID := row.id, CreatedAt := row.created_at, UpdatedAt := row.updated_at,
         Channels := row.channels, ExtraChannels := ecs }, none) := by
  simp only [readView]
  rw [List.Sorted.insertionSort_eq (extraChannelRows_sorted id ecs seq), extraChannelRows_map]

/-! ### The insert loop -/

theorem exec_insertExtraChannel_ok (s s1 : Store) (id : String) (ec : ExtraChannel) (n : Nat)
    (h : s.exec (.insertGatewayConfigurationExtraChannel id ec.Modulation ec.Frequency
      ec.Bandwidth ec.Bitrate ec.SpreadingFactors) = .ok (s1, n)) :
    s.gateway_configuration.any (fun r => r.id == id) = true ∧
    s1 = { s with
      gateway_configuration_extra_channel :=
        s.gateway_configuration_extra_channel ++
          extraChannelRows s.gateway_configuration_extra_channel_seq id [ec],
      gateway_configuration_extra_channel_seq := s.gateway_configuration_extra_channel_seq + 1 } := by
  simp only [Store.exec, Store.insertGatewayConfigurationExtraChannel] at h
  split at h
  · rename_i hp
    cases h
    exact ⟨hp, rfl⟩
  · cases h

theorem insertExtraChannels_log (id : String) (ecs : List ExtraChannel) (w : World) :
    (insertExtraChannels w id ecs).1.log = w.log := by
  induction ecs generalizing w with
  | nil => rfl
  | cons ec rest ih =>
    have hl := Exec_log w (.insertGatewayConfigurationExtraChannel id ec.Modulation
      ec.Frequency ec.Bandwidth ec.Bitrate ec.SpreadingFactors)
    simp only [insertExtraChannels]
    split
    · rename_i e w1 h
      rw [h] at hl
      exact hl
    · rename_i r w1 h
      rw [h] at hl
      rw [ih w1]
      exact hl

theorem insertExtraChannels_issued (id : String) (ecs : List ExtraChannel) (w : World) :
    ∃ l, l <+: insertExtraChannelStmts id ecs ∧
      (insertExtraChannels w id ecs).1.issued = w.issued ++ l := by
  induction ecs generalizing w with
  | nil => exact ⟨[], List.nil_prefix, by simp [insertExtraChannels]⟩
  | cons ec rest ih =>
    simp only [insertExtraChannels]
    split
    · rename_i e w1 h
      have hi := Exec_issued w (.insertGatewayConfigurationExtraChannel id ec.Modulation
        ec.Frequency ec.Bandwidth ec.Bitrate ec.SpreadingFactors)
      rw [h] at hi
      refine ⟨[.insertGatewayConfigurationExtraChannel id ec.Modulation
        ec.Frequency ec.Bandwidth ec.Bitrate ec.SpreadingFactors], ?_, hi⟩
      simp [insertExtraChannelStmts]
    · rename_i r w1 h
      have hi := Exec_issued w (.insertGatewayConfigurationExtraChannel id ec.Modulation
        ec.Frequency ec.Bandwidth ec.Bitrate ec.SpreadingFactors)
      rw [h] at hi
      obtain ⟨l, hl, hl2⟩ := ih w1
      refine ⟨.insertGatewayConfigurationExtraChannel id ec.Modulation
        ec.Frequency ec.Bandwidth ec.Bitrate ec.SpreadingFactors :: l, ?_, ?_⟩
      · simp only [insertExtraChannelStmts, List.map_cons]
        exact (List.prefix_cons_inj _).mpr hl
      · rw [hl2]
        simp only at hi
        rw [hi]
        simp

theorem insertExtraChannels_ok (id : String) (ecs : List ExtraChannel) (w w1 : World)
    (h : insertExtraChannels w id ecs = (w1, none)) :
    w1 = { store := { w.store with
             gateway_configuration_extra_channel :=
               w.store.gateway_configuration_extra_channel ++
                 extraChannelRows w.store.gateway_configuration_extra_channel_seq id ecs,
             gateway_configuration_extra_channel_seq :=
               w.store.gateway_configuration_extra_channel_seq + ecs.length },
           faults := w.faults.drop ecs.length,
           issued := w.issued ++ insertExtraChannelStmts id ecs,
           log := w.log } := by
  induction ecs generalizing w with
  | nil =>
    simp only [insertExtraChannels] at h
    cases h
    simp [extraChannelRows, insertExtraChannelStmts]
  | cons ec rest ih =>
    simp only [insertExtraChannels] at h
    split at h
    · cases h
    · rename_i r w2 hx
      obtain ⟨_, hs, hw⟩ := Exec_ok _ _ _ _ hx
      obtain ⟨_, hs1⟩ := exec_insertExtraChannel_ok _ _ _ _ _ hs
      have := ih w2 h
      rw [this, hw, hs1]
      simp [World.issue, extraChannelRows, insertExtraChannelStmts, Nat.add_assoc, Nat.add_comm 1]

theorem insertExtraChannels_store (id : String) (ecs : List ExtraChannel) (w : World) :
    ∃ k, k ≤ ecs.length ∧ (insertExtraChannels w id ecs).1.store = { w.store with
      gateway_configuration_extra_channel :=
        w.store.gateway_configuration_extra_channel ++
          extraChannelRows w.store.gateway_configuration_extra_channel_seq id (ecs.take k),
      gateway_configuration_extra_channel_seq :=
        w.store.gateway_configuration_extra_channel_seq + k } := by
  induction ecs generalizing w with
  | nil => exact ⟨0, le_refl _, by simp [insertExtraChannels, extraChannelRows]⟩
  | cons ec rest ih =>
    simp only [insertExtraChannels]
    split
    · rename_i e w1 h
      rw [Exec_error _ _ _ _ h]
      exact ⟨0, Nat.zero_le _, by simp [World.issue, extraChannelRows]⟩
    · rename_i r w2 hx
      obtain ⟨_, hs, hw⟩ := Exec_ok _ _ _ _ hx
      obtain ⟨_, hs1⟩ := exec_insertExtraChannel_ok _ _ _ _ _ hs
      obtain ⟨k, hk, hk2⟩ := ih w2
      refine ⟨k + 1, by simpa using hk, ?_⟩
      rw [hk2, hs1]
      simp [extraChannelRows, Nat.add_assoc, Nat.add_comm 1]

/-! ### Reading -/

theorem scanExtraChannels_eq (rows : List ExtraChannelRow) (c : GatewayConfiguration) :
    scanExtraChannels c rows =
      ({ c with ExtraChannels := c.ExtraChannels ++ rows.map ExtraChannelRow.toExtraChannel },
       none) := by
  induction rows generalizing c with
  | nil => simp [scanExtraChannels]
  | cons r rest ih =>
    simp only [scanExtraChannels, scanExtraChannel]
    rw [ih]
    simp [ExtraChannelRow.toExtraChannel]

theorem healthy_fails (w : World) : w.healthy.fails = false := by
  simp [World.healthy, World.fails]

theorem issue_healthy_fails (w : World) (st : Stmt) : (w.healthy.issue st).fails = false := by
  simp [World.healthy, World.fails, World.issue]

theorem QueryRowx_snd (w : World) (id : String) :
    (w.QueryRowx id).2 = w.issue (.selectGatewayConfiguration id) := by
  unfold World.QueryRowx
  split <;> rfl

theorem Query_snd (w : World) (id : String) :
    (w.Query id).2 = w.issue (.selectGatewayConfigurationExtraChannels id) := by
  unfold World.Query
  split <;> rfl

theorem Get_fst (w : World) (id : String) :
    (GetGatewayConfiguration w id).1 = w.issue (.selectGatewayConfiguration id) ∨
    (GetGatewayConfiguration w id).1 =
      (w.issue (.selectGatewayConfiguration id)).issue
        (.selectGatewayConfigurationExtraChannels id) := by
  unfold GetGatewayConfiguration
  simp only
  have h1 := QueryRowx_snd w id
  split
  · rename_i e w1 h
    rw [h] at h1
    exact Or.inl h1
  · rename_i row w1 h
    rw [h] at h1
    have h2 := Query_snd w1 id
    split
    · rename_i e w2 h'
      rw [h'] at h2
      simp only at h1 h2
      exact Or.inr (by rw [h2, h1])
    · rename_i rows w2 h'
      rw [h'] at h2
      simp only at h1 h2
      exact Or.inr (by rw [h2, h1])

theorem Get_store (w : World) (id : String) :
    (GetGatewayConfiguration w id).1.store = w.store := by
  rcases Get_fst w id with h | h <;> rw [h] <;> rfl

theorem Get_log (w : World) (id : String) :
    (GetGatewayConfiguration w id).1.log = w.log := by
  rcases Get_fst w id with h | h <;> rw [h] <;> rfl

theorem Get_healthy (w : World) (id : String) :
    (GetGatewayConfiguration w.healthy id).2 = readView (w.store.view id) := by
  unfold GetGatewayConfiguration World.QueryRowx World.Query
  simp only [healthy_fails, issue_healthy_fails, Bool.false_eq_true, if_false]
  unfold Store.selectGatewayConfiguration readView Store.view
  simp only [World.healthy, World.issue]
  cases hf : w.store.gateway_configuration.find? (fun r => r.id == id) with
  | none => rfl
  | some row =>
    simp only [scanExtraChannels_eq, Store.selectGatewayConfigurationExtraChannels]
    simp [GatewayConfiguration.zero, World.fails]

/-! ### Create -/

theorem Create_unfold (w : World) (now : Time) (u : UUID) (c : GatewayConfiguration) :
    CreateGatewayConfiguration w now u c =
      match w.Exec (.insertGatewayConfiguration (createdValue now u c).ID now now c.Channels) with
      | (.error e, w1) => (w1, createdValue now u c, some (handlePSQLError e "insert error"))
      | (.ok _, w1) =>
        match insertExtraChannels w1 (createdValue now u c).ID c.ExtraChannels with
        | (w2, some e) => (w2, createdValue now u c, some e)
        | (w2, none) =>
          ({ w2 with log := w2.log ++
              [logEntry (createdValue now u c).ID "gateway configuration created"] },
            createdValue now u c, none) := by
  unfold CreateGatewayConfiguration createdValue logEntry
  by_cases h : c.ID = "" <;> simp [h]

theorem Create_value (w : World) (now : Time) (u : UUID) (c : GatewayConfiguration) :
    (CreateGatewayConfiguration w now u c).2.1 = createdValue now u c := by
  rw [Create_unfold]
  split
  · rfl
  · split <;> rfl

theorem exec_insertGatewayConfiguration_ok (s s1 : Store) (id : String) (ca ua : Time)
    (ch : List Int) (n : Nat)
    (h : s.exec (.insertGatewayConfiguration id ca ua ch) = .ok (s1, n)) :
    ¬ s.Present id ∧
    s1 = { s with gateway_configuration := s.gateway_configuration ++
            [{ id := id, created_at := ca, updated_at := ua, channels := ch }] } := by
  simp only [Store.exec, Store.insertGatewayConfiguration] at h
  split at h
  · cases h
  · rename_i hp
    cases h
    refine ⟨?_, rfl⟩
    rintro ⟨p, hp1, hp2⟩
    apply hp
    simp only [List.any_eq_true, beq_iff_eq]
    exact ⟨p, hp1, hp2⟩

theorem Create_ok (w w1 : World) (now : Time) (u : UUID) (c c1 : GatewayConfiguration)
    (h : CreateGatewayConfiguration w now u c = (w1, c1, none)) :
    c1 = createdValue now u c ∧ ¬ w.store.Present c1.ID ∧
    w1 = { store := { w.store with
             gateway_configuration := w.store.gateway_configuration ++
               [{ id := c1.ID, created_at := now, updated_at := now, channels := c.Channels }],
             gateway_configuration_extra_channel :=
               w.store.gateway_configuration_extra_channel ++
                 extraChannelRows w.store.gateway_configuration_extra_channel_seq c1.ID
                   c.ExtraChannels,
             gateway_configuration_extra_channel_seq :=
               w.store.gateway_configuration_extra_channel_seq + c.ExtraChannels.length },
           faults := w.faults.drop (c.ExtraChannels.length + 1),
           issued := w.issued ++ .insertGatewayConfiguration c1.ID now now c.Channels ::
             insertExtraChannelStmts c1.ID c.ExtraChannels,
           log := w.log ++ [logEntry c1.ID "gateway configuration created"] } := by
  rw [Create_unfold] at h
  split at h
  · cases h
  · rename_i r w2 hx
    obtain ⟨_, hs, hw⟩ := Exec_ok _ _ _ _ hx
    obtain ⟨hp, hs1⟩ := exec_insertGatewayConfiguration_ok _ _ _ _ _ _ _ hs
    split at h
    · cases h
    · rename_i w3 hi
      have h3 := insertExtraChannels_ok _ _ _ _ hi
      cases h
      refine ⟨rfl, hp, ?_⟩
      rw [h3, hw, hs1]
      simp [World.issue, List.drop_drop, Nat.add_comm]

theorem find?_append_new (l : List ConfigurationRow) (row : ConfigurationRow) (id : String)
    (hl : ∀ r ∈ l, r.id ≠ id) (hrow : row.id = id) :
    (l ++ [row]).find? (fun r => r.id == id) = some row := by
  rw [List.find?_append]
  have : l.find? (fun r => r.id == id) = none := by
    rw [List.find?_eq_none]
    intro r hr
    simpa using hl r hr
  rw [this]
  simp [hrow]

theorem filter_absent (s : Store) (id : String) (hv : s.Valid) (hp : ¬ s.Present id) :
    s.gateway_configuration_extra_channel.filter (fun r => r.gateway_configuration_id == id)
      = [] := by
  rw [List.filter_eq_nil_iff]
  intro r hr
  obtain ⟨p, hp1, hp2⟩ := hv r hr
  intro h
  apply hp
  exact ⟨p, hp1, by rw [hp2]; simpa using h⟩

/-- C1 (round trip).  In a store that keeps referential integrity, for a
configuration `c` with a non-empty ExtraChannels list whose identifier is not
yet present: when CreateGatewayConfiguration succeeds, leaving the value `c1`
with its caller, a read of `c1.ID` (on a handle whose statements go through)
succeeds and returns the identifier `c1.ID`, the Channels of `c` and the
ExtraChannels of `c`, element for element in the same order. -/
theorem create_then_get_round_trip (w w1 : World) (now : Time) (u : UUID)
    (c c1 : GatewayConfiguration) (hv : w.store.Valid) (_hne : c.ExtraChannels ≠ [])
    (_hnew : ¬ w.store.Present c.ID)
    (h : CreateGatewayConfiguration w now u c = (w1, c1, none)) :
    (GetGatewayConfiguration w1.healthy c1.ID).2 =
      ({ ID := c1.ID, CreatedAt := now, UpdatedAt := now, Channels := c.Channels,
         ExtraChannels := c.ExtraChannels }, none) := by
  obtain ⟨_, hp, hw⟩ := Create_ok _ _ _ _ _ _ h
  have hold : ∀ r ∈ w.store.gateway_configuration, r.id ≠ c1.ID :=
    fun r hr hid => hp ⟨r, hr, hid⟩
  rw [Get_healthy, hw]
  simp only [Store.view, World.healthy]
  rw [find?_append_new _ _ _ hold rfl, List.filter_append, filter_absent _ _ hv hp,
    extraChannelRows_filter_self, List.nil_append, readView_extraChannelRows]

/-- Witness of C1: the configuration of the package test, created in a clean
database. -/
theorem create_then_get_round_trip_witness :
    cleanWorld.store.Valid ∧ exampleConfiguration.ExtraChannels ≠ [] ∧
    ¬ cleanWorld.store.Present exampleConfiguration.ID ∧
    CreateGatewayConfiguration cleanWorld 5 exampleUUID exampleConfiguration =
      (createdWorld, createdValue 5 exampleUUID exampleConfiguration, none) ∧
    (GetGatewayConfiguration createdWorld.healthy
        (createdValue 5 exampleUUID exampleConfiguration).ID).2 =
      ({ ID := (createdValue 5 exampleUUID exampleConfiguration).ID, CreatedAt := 5,
         UpdatedAt := 5, Channels := exampleConfiguration.Channels,
         ExtraChannels := exampleConfiguration.ExtraChannels }, none) :=
  have h1 : cleanWorld.store.Valid := by decide
  have h2 : exampleConfiguration.ExtraChannels ≠ [] := by decide
  have h3 : ¬ cleanWorld.store.Present exampleConfiguration.ID := by decide
  have h4 : CreateGatewayConfiguration cleanWorld 5 exampleUUID exampleConfiguration =
      (createdWorld, createdValue 5 exampleUUID exampleConfiguration, none) := by decide
  ⟨h1, h2, h3, h4, create_then_get_round_trip _ _ _ _ _ _ h1 h2 h3 h4⟩

theorem UUID_String_ne_empty (u : UUID) : u.String ≠ "" := by
  intro h
  have := congrArg String.data h
  simp [UUID.String, hexEncode] at this

theorem Create_issued (w : World) (now : Time) (u : UUID) (c : GatewayConfiguration) :
    ∃ l, l <+: insertExtraChannelStmts (createdValue now u c).ID c.ExtraChannels ∧
      (CreateGatewayConfiguration w now u c).1.issued =
        w.issued ++ .insertGatewayConfiguration (createdValue now u c).ID now now c.Channels ::
          l := by
  have hi := Exec_issued w
    (.insertGatewayConfiguration (createdValue now u c).ID now now c.Channels)
  rw [Create_unfold]
  split
  · rename_i e w1 hx
    rw [hx] at hi
    exact ⟨[], List.nil_prefix, hi⟩
  · rename_i r w1 hx
    rw [hx] at hi
    simp only at hi
    obtain ⟨l, hl, hl2⟩ := insertExtraChannels_issued (createdValue now u c).ID c.ExtraChannels w1
    refine ⟨l, hl, ?_⟩
    split
    · rename_i w2 e hins
      rw [hins] at hl2
      simp only at hl2 ⊢
      rw [hl2, hi]
      simp
    · rename_i w2 hins
      rw [hins] at hl2
      simp only at hl2 ⊢
      rw [hl2, hi]
      simp

theorem Create_store (w : World) (now : Time) (u : UUID) (c : GatewayConfiguration) :
    (CreateGatewayConfiguration w now u c).1.store = w.store ∨
    ∃ k, k ≤ c.ExtraChannels.length ∧ ¬ w.store.Present (createdValue now u c).ID ∧
      (CreateGatewayConfiguration w now u c).1.store = { w.store with
        gateway_configuration := w.store.gateway_configuration ++
          [{ id := (createdValue now u c).ID, created_at := now, updated_at := now,
             channels := c.Channels }],
        gateway_configuration_extra_channel :=
          w.store.gateway_configuration_extra_channel ++
            extraChannelRows w.store.gateway_configuration_extra_channel_seq
              (createdValue now u c).ID (c.ExtraChannels.take k),
        gateway_configuration_extra_channel_seq :=
          w.store.gateway_configuration_extra_channel_seq + k } := by
  rw [Create_unfold]
  split
  · rename_i e w1 hx
    rw [Exec_error _ _ _ _ hx]
    exact Or.inl rfl
  · rename_i r w1 hx
    obtain ⟨_, hs, hw⟩ := Exec_ok _ _ _ _ hx
    obtain ⟨hp, hs1⟩ := exec_insertGatewayConfiguration_ok _ _ _ _ _ _ _ hs
    obtain ⟨k, hk, hk2⟩ := insertExtraChannels_store (createdValue now u c).ID c.ExtraChannels w1
    refine Or.inr ⟨k, hk, hp, ?_⟩
    split
    · rename_i w2 e hins
      rw [hins] at hk2
      simp only at hk2 ⊢
      rw [hk2, hs1]
    · rename_i w2 hins
      rw [hins] at hk2
      simp only at hk2 ⊢
      rw [hk2, hs1]

/-- C6 (Create populates the caller's value).  Whatever the outcome, the value
Create leaves with its caller has CreatedAt = UpdatedAt = the clock reading, an
identifier that is the caller's when that was non-empty and otherwise the text
of the drawn UUID, which is never empty, and the Channels and ExtraChannels it
came with.  The statements Create issues are the parent insert followed by an
initial run of the child inserts in list order, and the child rows it adds are
those of an initial run of the list, with consecutive serial keys; when Create
succeeds the run is the whole list. -/
theorem create_populates_value (w : World) (now : Time) (u : UUID) (c : GatewayConfiguration) :
    (CreateGatewayConfiguration w now u c).2.1.CreatedAt = now ∧
    (CreateGatewayConfiguration w now u c).2.1.UpdatedAt = now ∧
    (CreateGatewayConfiguration w now u c).2.1.ID = (if c.ID = "" then u.String else c.ID) ∧
    u.String ≠ "" ∧
    (CreateGatewayConfiguration w now u c).2.1.Channels = c.Channels ∧
    (CreateGatewayConfiguration w now u c).2.1.ExtraChannels = c.ExtraChannels ∧
    (∃ l, l <+: insertExtraChannelStmts (CreateGatewayConfiguration w now u c).2.1.ID
          c.ExtraChannels ∧
      (CreateGatewayConfiguration w now u c).1.issued = w.issued ++
        .insertGatewayConfiguration (CreateGatewayConfiguration w now u c).2.1.ID now now
          c.Channels :: l) ∧
    (∃ k, (CreateGatewayConfiguration w now u c).1.store.gateway_configuration_extra_channel =
      w.store.gateway_configuration_extra_channel ++
        extraChannelRows w.store.gateway_configuration_extra_channel_seq
          (CreateGatewayConfiguration w now u c).2.1.ID (c.ExtraChannels.take k)) ∧
    ((CreateGatewayConfiguration w now u c).2.2 = none →
      (CreateGatewayConfiguration w now u c).1.issued = w.issued ++
        .insertGatewayConfiguration (CreateGatewayConfiguration w now u c).2.1.ID now now
          c.Channels ::
          insertExtraChannelStmts (CreateGatewayConfiguration w now u c).2.1.ID c.ExtraChannels ∧
      (CreateGatewayConfiguration w now u c).1.store.gateway_configuration_extra_channel =
        w.store.gateway_configuration_extra_channel ++
          extraChannelRows w.store.gateway_configuration_extra_channel_seq
            (CreateGatewayConfiguration w now u c).2.1.ID c.ExtraChannels) := by
  rw [Create_value]
  refine ⟨rfl, rfl, rfl, UUID_String_ne_empty u, rfl, rfl, Create_issued w now u c, ?_, ?_⟩
  · rcases Create_store w now u c with h | ⟨k, _, _, h⟩
    · exact ⟨0, by rw [h]; simp [extraChannelRows]⟩
    · exact ⟨k, by rw [h]⟩
  · intro h
    have heq : CreateGatewayConfiguration w now u c =
        ((CreateGatewayConfiguration w now u c).1, createdValue now u c, none) := by
      rw [← Create_value w now u c, ← h]
    obtain ⟨_, _, hw⟩ := Create_ok _ _ _ _ _ _ heq
    constructor
    · rw [hw]
    · rw [hw]

/-! ### Statements on one identifier leave the view of another alone -/

theorem find?_map_update (l : List ConfigurationRow) (id id1 : String) (ua : Time)
    (ch : List Int) (h : id ≠ id1) :
    (l.map fun r => if r.id == id then { r with updated_at := ua, channels := ch } else r).find?
      (fun r => r.id == id1) = l.find? (fun r => r.id == id1) := by
  induction l with
  | nil => rfl
  | cons r rest ih =>
    simp only [List.map_cons, List.find?_cons]
    cases hb : (r.id == id)
    · simp only [Bool.false_eq_true, if_false]
      cases hc : (r.id == id1)
      · exact ih
      · rfl
    · have hr : r.id = id := by simpa using hb
      have hc : (r.id == id1) = false := by simp [hr, h]
      simp only [if_true, hc]
      exact ih

theorem find?_filter_other (l : List ConfigurationRow) (id id1 : String) (h : id ≠ id1) :
    (l.filter (fun r => r.id != id)).find? (fun r => r.id == id1) =
      l.find? (fun r => r.id == id1) := by
  induction l with
  | nil => rfl
  | cons r rest ih =>
    simp only [List.filter_cons, List.find?_cons, bne]
    cases hb : (r.id == id)
    · simp only [Bool.not_false, if_true, List.find?_cons]
      cases hc : (r.id == id1)
      · exact ih
      · rfl
    · have hr : r.id = id := by simpa using hb
      have hc : (r.id == id1) = false := by simp [hr, h]
      simp only [Bool.not_true, Bool.false_eq_true, if_false, hc]
      exact ih

theorem filter_filter_other (l : List ExtraChannelRow) (id id1 : String) (h : id ≠ id1) :
    (l.filter (fun r => r.gateway_configuration_id != id)).filter
      (fun r => r.gateway_configuration_id == id1) =
      l.filter (fun r => r.gateway_configuration_id == id1) := by
  rw [List.filter_filter]
  apply List.filter_congr
  intro r _
  by_cases h1 : r.gateway_configuration_id = id1
  · have : ¬ r.gateway_configuration_id = id := fun h2 => h (h2.symm.trans h1)
    simp [h1, this]
    exact fun h3 => h h3.symm
  · simp [h1]

theorem cascade_nil (rows : List ExtraChannelRow) : cascade [] rows = rows := by
  simp [cascade]

theorem cascade_present (s : Store) (id : String) (h : s.Present id)
    (rows : List ExtraChannelRow) :
    cascade (s.gateway_configuration.filter (fun r => r.id == id)) rows =
      rows.filter (fun r => r.gateway_configuration_id != id) := by
  unfold cascade
  apply List.filter_congr
  intro r _
  obtain ⟨p, hp1, hp2⟩ := h
  by_cases hr : r.gateway_configuration_id = id
  · have : (s.gateway_configuration.filter (fun r => r.id == id)).any
        (fun p => p.id == r.gateway_configuration_id) = true := by
      rw [List.any_eq_true]
      exact ⟨p, by simp [List.mem_filter, hp1, hp2], by simp [hp2, hr]⟩
    simp only [this, Bool.not_true]
    simp [hr]
  · have : (s.gateway_configuration.filter (fun r => r.id == id)).any
        (fun p => p.id == r.gateway_configuration_id) = false := by
      rw [List.any_eq_false]
      intro q hq
      simp only [List.mem_filter, beq_iff_eq] at hq
      simp only [beq_iff_eq, hq.2]
      exact fun h1 => hr h1.symm
    simp only [this, Bool.not_false]
    simp [hr]

theorem cascade_filter_other (l : List ConfigurationRow) (rows : List ExtraChannelRow)
    (id id1 : String) (h : id ≠ id1) :
    (cascade (l.filter (fun r => r.id == id)) rows).filter
      (fun r => r.gateway_configuration_id == id1) =
      rows.filter (fun r => r.gateway_configuration_id == id1) := by
  unfold cascade
  rw [List.filter_filter]
  apply List.filter_congr
  intro r _
  by_cases h1 : r.gateway_configuration_id = id1
  · have : (l.filter (fun r => r.id == id)).any
        (fun p => p.id == r.gateway_configuration_id) = false := by
      rw [List.any_eq_false]
      intro q hq
      simp only [List.mem_filter, beq_iff_eq] at hq
      simp only [beq_iff_eq, hq.2, h1]
      exact h
    simp only [this, Bool.not_false, Bool.and_true]
  · simp [h1]

theorem exec_view (s s1 : Store) (st : Stmt) (n : Nat) (id id1 : String)
    (ht : st.writesOnly id) (h : id ≠ id1) (hx : s.exec st = .ok (s1, n)) :
    s1.view id1 = s.view id1 := by
  cases st <;> simp only [Store.exec, Stmt.writesOnly] at hx ht
  case insertGatewayConfiguration i ca ua ch =>
    subst ht
    simp only [Store.insertGatewayConfiguration] at hx
    split at hx
    · cases hx
    · cases hx
      simp [Store.view, List.find?_append, h]
  case insertGatewayConfigurationExtraChannel i m f b br sf =>
    subst ht
    simp only [Store.insertGatewayConfigurationExtraChannel] at hx
    split at hx
    · cases hx
      simp [Store.view, List.filter_append, h]
    · cases hx
  case updateGatewayConfiguration i ua ch =>
    subst ht
    simp only [Store.updateGatewayConfiguration] at hx
    cases hx
    simp only [Store.view]
    rw [find?_map_update _ _ _ _ _ h]
  case deleteGatewayConfigurationExtraChannels i =>
    subst ht
    simp only [Store.deleteGatewayConfigurationExtraChannels] at hx
    cases hx
    simp only [Store.view]
    rw [filter_filter_other _ _ _ h]
  case deleteGatewayConfiguration i =>
    subst ht
    simp only [Store.deleteGatewayConfiguration] at hx
    cases hx
    simp only [Store.view]
    rw [cascade_filter_other _ _ _ _ h, find?_filter_other _ _ _ h]
  case insertGatewayProfile i ca ua ch =>
    simp only [Store.insertGatewayProfile] at hx
    split at hx
    · cases hx
    · cases hx; rfl
  case insertGatewayProfileExtraChannel i m f b br sf =>
    simp only [Store.insertGatewayProfileExtraChannel] at hx
    split at hx
    · cases hx; rfl
    · cases hx
  case updateGatewayProfileID i j =>
    simp only [Store.updateGatewayProfileID] at hx
    cases hx; rfl
  all_goals (cases hx; rfl)

theorem Exec_view (w : World) (st : Stmt) (id id1 : String) (ht : st.writesOnly id)
    (h : id ≠ id1) : (w.Exec st).2.store.view id1 = w.store.view id1 := by
  unfold World.Exec
  split
  · rfl
  · split
    · rfl
    · rename_i s n hx
      exact exec_view _ _ _ _ _ _ ht h hx

theorem insertExtraChannels_view (id id1 : String) (h : id ≠ id1) (ecs : List ExtraChannel)
    (w : World) : (insertExtraChannels w id ecs).1.store.view id1 = w.store.view id1 := by
  induction ecs generalizing w with
  | nil => rfl
  | cons ec rest ih =>
    have hv := Exec_view w (.insertGatewayConfigurationExtraChannel id ec.Modulation
      ec.Frequency ec.Bandwidth ec.Bitrate ec.SpreadingFactors) id id1 rfl h
    simp only [insertExtraChannels]
    split
    · rename_i e w1 hx
      rw [hx] at hv
      exact hv
    · rename_i r w1 hx
      rw [hx] at hv
      rw [ih w1]
      exact hv

/-! ### Update -/

theorem filter_length_eq_zero_iff (s : Store) (id : String) :
    (s.gateway_configuration.filter (fun r => r.id == id)).length = 0 ↔ ¬ s.Present id := by
  rw [List.length_eq_zero, List.filter_eq_nil_iff]
  constructor
  · rintro h ⟨p, hp1, hp2⟩
    exact h p hp1 (by simpa using hp2)
  · intro h r hr hid
    exact h ⟨r, hr, by simpa using hid⟩

theorem map_update_absent (l : List ConfigurationRow) (id : String) (ua : Time) (ch : List Int)
    (h : ∀ r ∈ l, r.id ≠ id) :
    (l.map fun r => if r.id == id then { r with updated_at := ua, channels := ch } else r)
      = l := by
  induction l with
  | nil => rfl
  | cons r rest ih =>
    have hr : (r.id == id) = false := by simpa using h r (List.mem_cons_self _ _)
    simp only [List.map_cons, hr, Bool.false_eq_true, if_false]
    rw [ih fun x hx => h x (List.mem_cons_of_mem _ hx)]

theorem Exec_update (w : World) (id : String) (ua : Time) (ch : List Int) :
    w.Exec (.updateGatewayConfiguration id ua ch) =
      if w.fails then (.error .engineFailure, w.issue (.updateGatewayConfiguration id ua ch))
      else
        (.ok { rows := (w.store.gateway_configuration.filter (fun r => r.id == id)).length },
         { w.issue (.updateGatewayConfiguration id ua ch) with
           store := { w.store with
             gateway_configuration :=
               w.store.gateway_configuration.map fun r =>
                 if r.id == id then { r with updated_at := ua, channels := ch } else r } }) := by
  unfold World.Exec
  split
  · rfl
  · rfl

theorem Exec_deleteExtraChannels (w : World) (id : String) :
    w.Exec (.deleteGatewayConfigurationExtraChannels id) =
      if w.fails then
        (.error .engineFailure, w.issue (.deleteGatewayConfigurationExtraChannels id))
      else
        (.ok { rows := (w.store.gateway_configuration_extra_channel.filter
                (fun r => r.gateway_configuration_id == id)).length },
         { w.issue (.deleteGatewayConfigurationExtraChannels id) with
           store := { w.store with
             gateway_configuration_extra_channel :=
               w.store.gateway_configuration_extra_channel.filter
                 (fun r => r.gateway_configuration_id != id) } }) := by
  unfold World.Exec
  split
  · rfl
  · rfl

theorem Exec_delete (w : World) (id : String) :
    w.Exec (.deleteGatewayConfiguration id) =
      if w.fails then (.error .engineFailure, w.issue (.deleteGatewayConfiguration id))
      else
        (.ok { rows := (w.store.gateway_configuration.filter (fun r => r.id == id)).length },
         { w.issue (.deleteGatewayConfiguration id) with
           store := { w.store with
             gateway_configuration := w.store.gateway_configuration.filter (fun r => r.id != id),
             gateway_configuration_extra_channel :=
               cascade (w.store.gateway_configuration.filter (fun r => r.id == id))
                 w.store.gateway_configuration_extra_channel } }) := by
  unfold World.Exec
  split
  · rfl
  · rfl

theorem Update_value (w : World) (now : Time) (c : GatewayConfiguration) :
    (UpdateGatewayConfiguration w now c).2.1 = { c with UpdatedAt := now } := by
  unfold UpdateGatewayConfiguration
  simp only
  split
  · rfl
  · split
    · rfl
    · split
      · rfl
      · split
        · rfl
        · split <;> rfl

theorem Update_missing (w : World) (now : Time) (c : GatewayConfiguration)
    (hmiss : ¬ w.store.Present c.ID) :
    UpdateGatewayConfiguration w now c =
      (w.issue (.updateGatewayConfiguration c.ID now c.Channels), { c with UpdatedAt := now },
       some (if w.fails then .StorageFailure "update error" else .ErrDoesNotExist)) := by
  have h0 := (filter_length_eq_zero_iff w.store c.ID).mpr hmiss
  have hid : ∀ r ∈ w.store.gateway_configuration, r.id ≠ c.ID :=
    fun r hr hid => hmiss ⟨r, hr, hid⟩
  unfold UpdateGatewayConfiguration
  simp only [Exec_update]
  by_cases hf : w.fails = true
  · simp [hf, handlePSQLError]
  · simp only [hf, Bool.false_eq_true, if_false, Result.RowsAffected, h0, if_true]
    rw [map_update_absent _ _ _ _ hid]
    rfl

theorem Update_ok (w w1 : World) (now : Time) (c c1 : GatewayConfiguration)
    (h : UpdateGatewayConfiguration w now c = (w1, c1, none)) :
    c1 = { c with UpdatedAt := now } ∧ w.store.Present c.ID ∧
    w1 = { store := { w.store with
             gateway_configuration :=
               w.store.gateway_configuration.map fun r =>
                 if r.id == c.ID then { r with updated_at := now, channels := c.Channels } else r
             gateway_configuration_extra_channel :=
               w.store.gateway_configuration_extra_channel.filter
                   (fun r => r.gateway_configuration_id != c.ID) ++
                 extraChannelRows w.store.gateway_configuration_extra_channel_seq c.ID
                   c.ExtraChannels,
             gateway_configuration_extra_channel_seq :=
               w.store.gateway_configuration_extra_channel_seq + c.ExtraChannels.length },
           faults := w.faults.drop (c.ExtraChannels.length + 2),
           issued := w.issued ++ .updateGatewayConfiguration c.ID now c.Channels ::
             .deleteGatewayConfigurationExtraChannels c.ID ::
             insertExtraChannelStmts c.ID c.ExtraChannels,
           log := w.log ++ [logEntry c.ID "gateway configuration updated"] } := by
  have hv := Update_value w now c
  rw [h] at hv
  unfold UpdateGatewayConfiguration at h
  simp only at h
  split at h
  · cases h
  · rename_i res w2 hx
    obtain ⟨_, hs, hw⟩ := Exec_ok _ _ _ _ hx
    simp only [Store.exec, Store.updateGatewayConfiguration, Except.ok.injEq,
      Prod.mk.injEq] at hs
    obtain ⟨hs1, hn⟩ := hs
    simp only [Result.RowsAffected] at h
    split at h
    · cases h
    · rename_i hra
      split at h
      · cases h
      · rename_i r2 w3 hx2
        obtain ⟨_, hs2, hw2⟩ := Exec_ok _ _ _ _ hx2
        simp only [Store.exec, Store.deleteGatewayConfigurationExtraChannels, Except.ok.injEq,
          Prod.mk.injEq] at hs2
        obtain ⟨hs3, _⟩ := hs2
        split at h
        · cases h
        · rename_i w4 hins
          have h3 := insertExtraChannels_ok _ _ _ _ hins
          simp only [Prod.mk.injEq] at h
          refine ⟨hv, ?_, ?_⟩
          · rw [← hn] at hra
            exact not_not.mp fun hp => hra ((filter_length_eq_zero_iff w.store c.ID).mpr hp)
          · rw [← h.1, h3, hw2, ← hs3, hw, ← hs1]
            simp [World.issue, logEntry, List.drop_drop, Nat.add_comm]
            congr 1
            omega

theorem find?_map_update_same (l : List ConfigurationRow) (id : String) (ua : Time)
    (ch : List Int) :
    (l.map fun r => if r.id == id then { r with updated_at := ua, channels := ch } else r).find?
      (fun r => r.id == id) =
      (l.find? (fun r => r.id == id)).map
        (fun r => { r with updated_at := ua, channels := ch }) := by
  induction l with
  | nil => rfl
  | cons r rest ih =>
    simp only [List.map_cons, List.find?_cons]
    cases hb : (r.id == id)
    · simp only [Bool.false_eq_true, if_false, hb]
      exact ih
    · simp only [if_true, hb, Option.map_some']

theorem find?_present (s : Store) (id : String) (h : s.Present id) :
    ∃ row, s.gateway_configuration.find? (fun r => r.id == id) = some row ∧ row.id = id := by
  obtain ⟨p, hp1, hp2⟩ := h
  cases hf : s.gateway_configuration.find? (fun r => r.id == id) with
  | none =>
    rw [List.find?_eq_none] at hf
    exact absurd (by simpa using hp2) (hf p hp1)
  | some row =>
    exact ⟨row, rfl, by simpa using List.find?_some hf⟩

theorem filter_ne_filter_eq (l : List ExtraChannelRow) (id : String) :
    (l.filter (fun r => r.gateway_configuration_id != id)).filter
      (fun r => r.gateway_configuration_id == id) = [] := by
  rw [List.filter_filter, List.filter_eq_nil_iff]
  intro r _
  simp

theorem Update_then_get (w w1 : World) (now : Time) (c c1 : GatewayConfiguration)
    (h : UpdateGatewayConfiguration w now c = (w1, c1, none)) :
    ∃ row, w.store.gateway_configuration.find? (fun r => r.id == c.ID) = some row ∧
      (∃ ecs, (GetGatewayConfiguration w.healthy c.ID).2 =
        ({ ID := c.ID, CreatedAt := row.created_at, UpdatedAt := row.updated_at,
           Channels := row.channels, ExtraChannels := ecs }, none)) ∧
      (GetGatewayConfiguration w1.healthy c.ID).2 =
        ({ ID := c.ID, CreatedAt := row.created_at, UpdatedAt := now, Channels := c.Channels,
           ExtraChannels := c.ExtraChannels }, none) ∧
      w1.store.gateway_configuration_extra_channel.filter
          (fun r => r.gateway_configuration_id == c.ID) =
        extraChannelRows w.store.gateway_configuration_extra_channel_seq c.ID c.ExtraChannels := by
  obtain ⟨_, hp, hw⟩ := Update_ok _ _ _ _ _ h
  obtain ⟨row, hrow, hid⟩ := find?_present _ _ hp
  refine ⟨row, hrow, ?_, ?_, ?_⟩
  · rw [Get_healthy]
    simp only [Store.view, readView, hrow, hid]
    exact ⟨_, rfl⟩
  · rw [Get_healthy, hw]
    simp only [Store.view, World.healthy]
    rw [find?_map_update_same, hrow, List.filter_append, filter_ne_filter_eq,
      extraChannelRows_filter_self, List.nil_append, Option.map_some',
      readView_extraChannelRows]
    simp only [hid]
  · rw [hw]
    simp only
    rw [List.filter_append, filter_ne_filter_eq, extraChannelRows_filter_self, List.nil_append]

/-- C2 (Update replaces fully).  When UpdateGatewayConfiguration succeeds on `c`,
the configuration `c.ID` was stored before, and a read of `c.ID` afterwards (on
a handle whose statements go through) returns the Channels of `c` and exactly
the ExtraChannels of `c` in the order of `c`, whatever child rows were there
before; the child rows of `c.ID` in the table are then exactly the rows the
update inserted, so none of the previous set remains. -/
theorem update_replaces_fully (w w1 : World) (now : Time) (c c1 : GatewayConfiguration)
    (h : UpdateGatewayConfiguration w now c = (w1, c1, none)) :
    (∃ before, (GetGatewayConfiguration w.healthy c.ID).2 = (before, none) ∧
      before.ID = c.ID ∧
      (GetGatewayConfiguration w1.healthy c.ID).2 =
        ({ ID := c.ID, CreatedAt := before.CreatedAt, UpdatedAt := now, Channels := c.Channels,
           ExtraChannels := c.ExtraChannels }, none)) ∧
    w1.store.gateway_configuration_extra_channel.filter
        (fun r => r.gateway_configuration_id == c.ID) =
      extraChannelRows w.store.gateway_configuration_extra_channel_seq c.ID c.ExtraChannels := by
  obtain ⟨row, _, ⟨ecs, hb⟩, ha, hf⟩ := Update_then_get _ _ _ _ _ h
  exact ⟨⟨_, hb, rfl, ha⟩, hf⟩

/-- C7 (CreatedAt is immutable under update).  Update leaves CreatedAt and ID of
the caller's value as they were, whatever the outcome.  When it succeeds, the
configuration was stored before, and a read of its identifier afterwards
returns the CreatedAt that a read returned before the update, whatever CreatedAt
the caller's value carries, and an UpdatedAt equal to the clock reading of the
update. -/
theorem update_keeps_created_at (w : World) (now : Time) (c : GatewayConfiguration) :
    (UpdateGatewayConfiguration w now c).2.1.CreatedAt = c.CreatedAt ∧
    (UpdateGatewayConfiguration w now c).2.1.ID = c.ID ∧
    ((UpdateGatewayConfiguration w now c).2.2 = none →
      ∃ before after, (GetGatewayConfiguration w.healthy c.ID).2 = (before, none) ∧
        (GetGatewayConfiguration (UpdateGatewayConfiguration w now c).1.healthy c.ID).2 =
          (after, none) ∧
        after.CreatedAt = before.CreatedAt ∧ after.UpdatedAt = now) := by
  rw [Update_value]
  refine ⟨rfl, rfl, fun h => ?_⟩
  have heq : UpdateGatewayConfiguration w now c =
      ((UpdateGatewayConfiguration w now c).1, { c with UpdatedAt := now }, none) := by
    rw [← Update_value w now c, ← h]
  obtain ⟨row, _, ⟨ecs, hb⟩, ha, _⟩ := Update_then_get _ _ _ _ _ heq
  exact ⟨_, _, hb, ha, rfl, rfl⟩

/-- Witness of C2: the update of the package test. -/
theorem update_replaces_fully_witness :
    UpdateGatewayConfiguration createdWorld 9 exampleUpdate =
      (updatedWorld, { exampleUpdate with UpdatedAt := 9 }, none) ∧
    ((∃ before, (GetGatewayConfiguration createdWorld.healthy exampleUpdate.ID).2 =
        (before, none) ∧ before.ID = exampleUpdate.ID ∧
      (GetGatewayConfiguration updatedWorld.healthy exampleUpdate.ID).2 =
        ({ ID := exampleUpdate.ID, CreatedAt := before.CreatedAt, UpdatedAt := 9,
           Channels := exampleUpdate.Channels,
           ExtraChannels := exampleUpdate.ExtraChannels }, none)) ∧
    updatedWorld.store.gateway_configuration_extra_channel.filter
        (fun r => r.gateway_configuration_id == exampleUpdate.ID) =
      extraChannelRows createdWorld.store.gateway_configuration_extra_channel_seq
        exampleUpdate.ID exampleUpdate.ExtraChannels) :=
  have h : UpdateGatewayConfiguration createdWorld 9 exampleUpdate =
      (updatedWorld, { exampleUpdate with UpdatedAt := 9 }, none) := by decide
  ⟨h, update_replaces_fully _ _ _ _ _ h⟩

/-- Witness of C7: the update of the package test succeeds, so the read after
it returns the CreatedAt of the read before it. -/
theorem update_keeps_created_at_witness :
    (UpdateGatewayConfiguration createdWorld 9 exampleUpdate).2.2 = none ∧
    ∃ before after, (GetGatewayConfiguration createdWorld.healthy exampleUpdate.ID).2 =
        (before, none) ∧
      (GetGatewayConfiguration
          (UpdateGatewayConfiguration createdWorld 9 exampleUpdate).1.healthy
          exampleUpdate.ID).2 = (after, none) ∧
      after.CreatedAt = before.CreatedAt ∧ after.UpdatedAt = 9 :=
  have h : (UpdateGatewayConfiguration createdWorld 9 exampleUpdate).2.2 = none := by decide
  ⟨h, (update_keeps_created_at createdWorld 9 exampleUpdate).2.2 h⟩

/-- Witness of C6: the Create of the package test succeeds, so it issues the
parent insert and then every child insert in list order. -/
theorem create_populates_value_witness :
    (CreateGatewayConfiguration cleanWorld 5 exampleUUID exampleConfiguration).2.2 = none ∧
    (CreateGatewayConfiguration cleanWorld 5 exampleUUID exampleConfiguration).1.issued =
      cleanWorld.issued ++
        .insertGatewayConfiguration
          (CreateGatewayConfiguration cleanWorld 5 exampleUUID exampleConfiguration).2.1.ID 5 5
          exampleConfiguration.Channels ::
          insertExtraChannelStmts
            (CreateGatewayConfiguration cleanWorld 5 exampleUUID exampleConfiguration).2.1.ID
            exampleConfiguration.ExtraChannels :=
  have h : (CreateGatewayConfiguration cleanWorld 5 exampleUUID exampleConfiguration).2.2 =
      none := by decide
  ⟨h, ((create_populates_value cleanWorld 5 exampleUUID
    exampleConfiguration).2.2.2.2.2.2.2.2 h).1⟩

/-- C8 (Update on a missing identifier changes nothing).  When `c.ID` has no
parent row, UpdateGatewayConfiguration issues the parent update statement and
nothing else, leaves every table and the log as they were, and returns
`ErrDoesNotExist` (or, when the engine fails on that one statement, the storage
failure). -/
theorem update_missing_changes_nothing (w : World) (now : Time) (c : GatewayConfiguration)
    (hmiss : ¬ w.store.Present c.ID) :
    (UpdateGatewayConfiguration w now c).2.2 =
      some (if w.fails then .StorageFailure "update error" else .ErrDoesNotExist) ∧
    (UpdateGatewayConfiguration w now c).1.issued =
      w.issued ++ [.updateGatewayConfiguration c.ID now c.Channels] ∧
    (UpdateGatewayConfiguration w now c).1.store = w.store ∧
    (UpdateGatewayConfiguration w now c).1.log = w.log := by
  rw [Update_missing w now c hmiss]
  exact ⟨rfl, rfl, rfl, rfl⟩

/-- Witness of C8: an update in a clean database. -/
theorem update_missing_changes_nothing_witness :
    ¬ cleanWorld.store.Present exampleUpdate.ID ∧
    (UpdateGatewayConfiguration cleanWorld 9 exampleUpdate).2.2 =
      some (if cleanWorld.fails then .StorageFailure "update error" else .ErrDoesNotExist) ∧
    (UpdateGatewayConfiguration cleanWorld 9 exampleUpdate).1.issued =
      cleanWorld.issued ++ [.updateGatewayConfiguration exampleUpdate.ID 9 exampleUpdate.Channels] ∧
    (UpdateGatewayConfiguration cleanWorld 9 exampleUpdate).1.store = cleanWorld.store ∧
    (UpdateGatewayConfiguration cleanWorld 9 exampleUpdate).1.log = cleanWorld.log :=
  have h : ¬ cleanWorld.store.Present exampleUpdate.ID := by decide
  ⟨h, update_missing_changes_nothing cleanWorld 9 exampleUpdate h⟩

/-! ### Delete -/

theorem Delete_missing (w : World) (id : String) (hmiss : ¬ w.store.Present id) :
    DeleteGatewayConfiguration w id =
      (w.issue (.deleteGatewayConfiguration id),
       some (if w.fails then .StorageFailure "delete error" else .ErrDoesNotExist)) := by
  have h0 := (filter_length_eq_zero_iff w.store id).mpr hmiss
  unfold DeleteGatewayConfiguration
  simp only [Exec_delete]
  by_cases hf : w.fails = true
  · simp [hf, handlePSQLError]
  · have hg : w.store.gateway_configuration.filter (fun r => r.id == id) = [] :=
      List.length_eq_zero.mp h0
    have hk : w.store.gateway_configuration.filter (fun r => r.id != id) =
        w.store.gateway_configuration := by
      rw [List.filter_eq_self]
      intro r hr
      simp only [bne_iff_ne, ne_eq]
      exact fun hid => hmiss ⟨r, hr, hid⟩
    simp only [hf, Bool.false_eq_true, if_false, Result.RowsAffected, h0, if_true, hg,
      cascade_nil, hk]
    rfl

theorem Delete_ok (w w1 : World) (id : String) (h : DeleteGatewayConfiguration w id = (w1, none)) :
    w.store.Present id ∧
    w1 = { store := { w.store with
             gateway_configuration := w.store.gateway_configuration.filter (fun r => r.id != id)
             gateway_configuration_extra_channel :=
               w.store.gateway_configuration_extra_channel.filter
                 (fun r => r.gateway_configuration_id != id) },
           faults := w.faults.tail,
           issued := w.issued ++ [.deleteGatewayConfiguration id],
           log := w.log ++ [logEntry id "gateway configuration deleted"] } := by
  by_cases hp : w.store.Present id
  · refine ⟨hp, ?_⟩
    have h0 : ¬ (w.store.gateway_configuration.filter (fun r => r.id == id)).length = 0 :=
      fun h0 => (filter_length_eq_zero_iff w.store id).mp h0 hp
    unfold DeleteGatewayConfiguration at h
    simp only [Exec_delete] at h
    by_cases hf : w.fails = true
    · simp [hf] at h
    · simp only [hf, Bool.false_eq_true, if_false, Result.RowsAffected, h0, Prod.mk.injEq,
        and_true, cascade_present _ _ hp] at h
      rw [← h]
      rfl
  · rw [Delete_missing w id hp] at h
    simp at h

theorem Delete_absent_after (w w1 : World) (id : String)
    (h : DeleteGatewayConfiguration w id = (w1, none)) : ¬ w1.store.Present id := by
  obtain ⟨_, hw⟩ := Delete_ok _ _ _ h
  rw [hw]
  rintro ⟨p, hp1, hp2⟩
  simp only [List.mem_filter, bne_iff_ne, ne_eq] at hp1
  exact hp1.2 hp2

theorem Get_missing (w : World) (id : String) (hmiss : ¬ w.store.Present id) :
    (GetGatewayConfiguration w.healthy id).2 =
      (GatewayConfiguration.zero, some .ErrDoesNotExist) := by
  rw [Get_healthy]
  have : w.store.gateway_configuration.find? (fun r => r.id == id) = none := by
    rw [List.find?_eq_none]
    intro r hr hid
    exact hmiss ⟨r, hr, by simpa using hid⟩
  simp only [Store.view, readView, this]

theorem Get_healthy_fails (w : World) (id : String) :
    (GetGatewayConfiguration w.healthy id).1.fails = false := by
  rcases Get_fst w.healthy id with h | h <;> rw [h] <;> rfl

/-- C3 (NotFound semantics).  When `id` has no parent row and the engine does
not fail on the statement, UpdateGatewayConfiguration on a configuration with
that identifier and DeleteGatewayConfiguration of it both return
`ErrDoesNotExist`. -/
theorem not_found_semantics (w : World) (now : Time) (c : GatewayConfiguration) (id : String)
    (hmiss : ¬ w.store.Present id) (hexec : w.fails = false) :
    (UpdateGatewayConfiguration w now { c with ID := id }).2.2 = some .ErrDoesNotExist ∧
    (DeleteGatewayConfiguration w id).2 = some .ErrDoesNotExist := by
  rw [Update_missing w now { c with ID := id } hmiss, Delete_missing w id hmiss]
  simp [hexec]

/-- Witness of C3: an identifier that was created and then deleted. -/
theorem not_found_semantics_witness :
    ¬ deletedWorld.store.Present createdConfiguration.ID ∧ deletedWorld.fails = false ∧
    (UpdateGatewayConfiguration deletedWorld 9
      { exampleUpdate with ID := createdConfiguration.ID }).2.2 = some .ErrDoesNotExist ∧
    (DeleteGatewayConfiguration deletedWorld createdConfiguration.ID).2 =
      some .ErrDoesNotExist :=
  have h1 : ¬ deletedWorld.store.Present createdConfiguration.ID := by decide
  have h2 : deletedWorld.fails = false := by decide
  ⟨h1, h2, not_found_semantics deletedWorld 9 exampleUpdate createdConfiguration.ID h1 h2⟩

/-- C4 (delete then get).  When DeleteGatewayConfiguration of `id` succeeds, a
read of `id` that follows (on a handle whose statements go through) fails with
`ErrDoesNotExist`, and so does a second DeleteGatewayConfiguration of `id`
after that read. -/
theorem delete_then_get (w w1 : World) (id : String)
    (h : DeleteGatewayConfiguration w id = (w1, none)) :
    (GetGatewayConfiguration w1.healthy id).2.2 = some .ErrDoesNotExist ∧
    (DeleteGatewayConfiguration (GetGatewayConfiguration w1.healthy id).1 id).2 =
      some .ErrDoesNotExist := by
  have hmiss := Delete_absent_after _ _ _ h
  constructor
  · rw [Get_missing w1 id hmiss]
  · have hs : (GetGatewayConfiguration w1.healthy id).1.store = w1.store := Get_store _ _
    rw [Delete_missing _ id (by rw [hs]; exact hmiss), Get_healthy_fails]
    rfl

/-- Witness of C4: the delete of the package test. -/
theorem delete_then_get_witness :
    DeleteGatewayConfiguration createdWorld createdConfiguration.ID = (deletedWorld, none) ∧
    (GetGatewayConfiguration deletedWorld.healthy createdConfiguration.ID).2.2 =
      some .ErrDoesNotExist ∧
    (DeleteGatewayConfiguration
      (GetGatewayConfiguration deletedWorld.healthy createdConfiguration.ID).1
      createdConfiguration.ID).2 = some .ErrDoesNotExist :=
  have h : DeleteGatewayConfiguration createdWorld createdConfiguration.ID =
      (deletedWorld, none) := by decide
  ⟨h, delete_then_get _ _ _ h⟩

/-! ### Operations on one identifier and reads of another -/

theorem Create_view (w : World) (now : Time) (u : UUID) (c : GatewayConfiguration)
    (id1 : String) (h : (createdValue now u c).ID ≠ id1) :
    (CreateGatewayConfiguration w now u c).1.store.view id1 = w.store.view id1 := by
  have hv := Exec_view w
    (.insertGatewayConfiguration (createdValue now u c).ID now now c.Channels)
    (createdValue now u c).ID id1 rfl h
  rw [Create_unfold]
  split
  · rename_i e w1 hx
    rw [hx] at hv
    exact hv
  · rename_i r w1 hx
    rw [hx] at hv
    have hi := insertExtraChannels_view (createdValue now u c).ID id1 h c.ExtraChannels w1
    split
    · rename_i w2 e hins
      rw [hins] at hi
      exact hi.trans hv
    · rename_i w2 hins
      rw [hins] at hi
      exact hi.trans hv

theorem Update_view (w : World) (now : Time) (c : GatewayConfiguration) (id1 : String)
    (h : c.ID ≠ id1) :
    (UpdateGatewayConfiguration w now c).1.store.view id1 = w.store.view id1 := by
  have hv := Exec_view w (.updateGatewayConfiguration c.ID now c.Channels) c.ID id1 rfl h
  unfold UpdateGatewayConfiguration
  simp only
  split
  · rename_i e w1 hx
    rw [hx] at hv
    exact hv
  · rename_i r w1 hx
    rw [hx] at hv
    split
    · exact hv
    · split
      · exact hv
      · have hd := Exec_view w1 (.deleteGatewayConfigurationExtraChannels c.ID) c.ID id1 rfl h
        split
        · rename_i e w2 hx2
          rw [hx2] at hd
          exact hd.trans hv
        · rename_i r2 w2 hx2
          rw [hx2] at hd
          have hi := insertExtraChannels_view c.ID id1 h c.ExtraChannels w2
          split
          · rename_i w3 e hins
            rw [hins] at hi
            exact hi.trans (hd.trans hv)
          · rename_i w3 hins
            rw [hins] at hi
            exact hi.trans (hd.trans hv)

theorem Delete_view (w : World) (id id1 : String) (h : id ≠ id1) :
    (DeleteGatewayConfiguration w id).1.store.view id1 = w.store.view id1 := by
  have hv := Exec_view w (.deleteGatewayConfiguration id) id id1 rfl h
  unfold DeleteGatewayConfiguration
  split
  · rename_i e w1 hx
    rw [hx] at hv
    exact hv
  · rename_i r w1 hx
    rw [hx] at hv
    split
    · exact hv
    · split
      · exact hv
      · exact hv

/-- C9 (operations on one identifier do not disturb another).  For two distinct
identifiers `id` and `id1`, the answer of a read of `id1` (parent fields, the
ordered ExtraChannels list, and the error) is the same before and after a
CreateGatewayConfiguration that stores under `id`, an UpdateGatewayConfiguration
of `id` and a DeleteGatewayConfiguration of `id`, whether the operation succeeds
or fails at any of its statements; the reads are on a handle whose statements
go through. -/
theorem other_identifier_undisturbed (w : World) (now : Time) (u : UUID)
    (c cu : GatewayConfiguration) (id id1 : String) (hne : id ≠ id1)
    (hc : (if c.ID = "" then u.String else c.ID) = id) (hu : cu.ID = id) :
    (GetGatewayConfiguration (CreateGatewayConfiguration w now u c).1.healthy id1).2 =
      (GetGatewayConfiguration w.healthy id1).2 ∧
    (GetGatewayConfiguration (UpdateGatewayConfiguration w now cu).1.healthy id1).2 =
      (GetGatewayConfiguration w.healthy id1).2 ∧
    (GetGatewayConfiguration (DeleteGatewayConfiguration w id).1.healthy id1).2 =
      (GetGatewayConfiguration w.healthy id1).2 := by
  simp only [Get_healthy]
  rw [Create_view w now u c id1 (by rw [← hc] at hne; exact hne),
    Update_view w now cu id1 (by rw [hu]; exact hne), Delete_view w id id1 hne]
  exact ⟨rfl, rfl, rfl⟩

/-- Witness of C9: next to the stored configuration of the package test, a
Create under `other` that fails at its first child insert, an Update of `other`
and a Delete of `other`. -/
theorem other_identifier_undisturbed_witness :
    "other" ≠ createdConfiguration.ID ∧
    (if otherConfiguration.ID = "" then exampleUUID.String else otherConfiguration.ID) =
      "other" ∧
    otherConfiguration.ID = "other" ∧
    (CreateGatewayConfiguration faultyWorld 7 exampleUUID otherConfiguration).2.2 =
      some (.StorageFailure "insert error") ∧
    ((GetGatewayConfiguration
        (CreateGatewayConfiguration faultyWorld 7 exampleUUID otherConfiguration).1.healthy
        createdConfiguration.ID).2 =
      (GetGatewayConfiguration faultyWorld.healthy createdConfiguration.ID).2 ∧
    (GetGatewayConfiguration
        (UpdateGatewayConfiguration faultyWorld 7 otherConfiguration).1.healthy
        createdConfiguration.ID).2 =
      (GetGatewayConfiguration faultyWorld.healthy createdConfiguration.ID).2 ∧
    (GetGatewayConfiguration (DeleteGatewayConfiguration faultyWorld "other").1.healthy
        createdConfiguration.ID).2 =
      (GetGatewayConfiguration faultyWorld.healthy createdConfiguration.ID).2) :=
  have h1 : "other" ≠ createdConfiguration.ID := by decide
  have h2 : (if otherConfiguration.ID = "" then exampleUUID.String
      else otherConfiguration.ID) = "other" := by decide
  have h3 : otherConfiguration.ID = "other" := by decide
  ⟨h1, h2, h3, by decide,
    other_identifier_undisturbed faultyWorld 7 exampleUUID otherConfiguration
      otherConfiguration "other" createdConfiguration.ID h1 h2 h3⟩

/-! ### Referential integrity is kept -/

theorem exec_valid (s s1 : Store) (st : Stmt) (n : Nat) (hv : s.Valid)
    (hx : s.exec st = .ok (s1, n)) : s1.Valid := by
  cases st <;> simp only [Store.exec] at hx
  case insertGatewayConfiguration i ca ua ch =>
    simp only [Store.insertGatewayConfiguration] at hx
    split at hx
    · cases hx
    · cases hx
      intro r hr
      obtain ⟨p, hp1, hp2⟩ := hv r hr
      exact ⟨p, List.mem_append_left _ hp1, hp2⟩
  case insertGatewayConfigurationExtraChannel i m f b br sf =>
    simp only [Store.insertGatewayConfigurationExtraChannel] at hx
    split at hx
    · rename_i hany
      cases hx
      intro r hr
      simp only [List.mem_append, List.mem_singleton] at hr
      rcases hr with hr | rfl
      · exact hv r hr
      · simp only [List.any_eq_true, beq_iff_eq] at hany
        exact hany
    · cases hx
  case updateGatewayConfiguration i ua ch =>
    simp only [Store.updateGatewayConfiguration] at hx
    cases hx
    intro r hr
    obtain ⟨p, hp1, hp2⟩ := hv r hr
    refine ⟨_, List.mem_map_of_mem _ hp1, ?_⟩
    split <;> exact hp2
  case deleteGatewayConfigurationExtraChannels i =>
    simp only [Store.deleteGatewayConfigurationExtraChannels] at hx
    cases hx
    intro r hr
    exact hv r (List.mem_of_mem_filter hr)
  case deleteGatewayConfiguration i =>
    simp only [Store.deleteGatewayConfiguration] at hx
    cases hx
    intro r hr
    simp only [cascade, List.mem_filter, Bool.not_eq_true', List.any_eq_false,
      beq_iff_eq] at hr
    obtain ⟨p, hp1, hp2⟩ := hv r hr.1
    refine ⟨p, ?_, hp2⟩
    simp only [List.mem_filter, bne_iff_ne, ne_eq]
    refine ⟨hp1, fun hpi => ?_⟩
    exact hr.2 p (by simp [List.mem_filter, hp1, hpi]) hp2
  case insertGatewayProfile i ca ua ch =>
    simp only [Store.insertGatewayProfile] at hx
    split at hx
    · cases hx
    · cases hx; exact hv
  case insertGatewayProfileExtraChannel i m f b br sf =>
    simp only [Store.insertGatewayProfileExtraChannel] at hx
    split at hx
    · cases hx; exact hv
    · cases hx
  case updateGatewayProfileID i j =>
    simp only [Store.updateGatewayProfileID] at hx
    cases hx; exact hv
  all_goals (cases hx; exact hv)

theorem Exec_valid (w : World) (st : Stmt) (hv : w.store.Valid) : (w.Exec st).2.store.Valid := by
  unfold World.Exec
  split
  · exact hv
  · split
    · exact hv
    · rename_i s n hx
      exact exec_valid _ _ _ _ hv hx

theorem insertExtraChannels_valid (id : String) (ecs : List ExtraChannel) (w : World)
    (hv : w.store.Valid) : (insertExtraChannels w id ecs).1.store.Valid := by
  induction ecs generalizing w with
  | nil => exact hv
  | cons ec rest ih =>
    have h1 := Exec_valid w (.insertGatewayConfigurationExtraChannel id ec.Modulation
      ec.Frequency ec.Bandwidth ec.Bitrate ec.SpreadingFactors) hv
    simp only [insertExtraChannels]
    split
    · rename_i e w1 hx
      rw [hx] at h1
      exact h1
    · rename_i r w1 hx
      rw [hx] at h1
      exact ih w1 h1

/-- Create, Update and Delete keep the referential integrity of the child table,
whatever their outcome; the clean database has it. -/
theorem operations_keep_valid (w : World) (now : Time) (u : UUID) (c : GatewayConfiguration)
    (id : String) (hv : w.store.Valid) :
    Store.empty.Valid ∧
    (CreateGatewayConfiguration w now u c).1.store.Valid ∧
    (UpdateGatewayConfiguration w now c).1.store.Valid ∧
    (DeleteGatewayConfiguration w id).1.store.Valid := by
  refine ⟨fun r hr => (nomatch hr), ?_, ?_, ?_⟩
  · have h1 := Exec_valid w
      (.insertGatewayConfiguration (createdValue now u c).ID now now c.Channels) hv
    rw [Create_unfold]
    split
    · rename_i e w1 hx
      rw [hx] at h1
      exact h1
    · rename_i r w1 hx
      rw [hx] at h1
      have h2 := insertExtraChannels_valid (createdValue now u c).ID c.ExtraChannels w1 h1
      split
      · rename_i w2 e hins
        rw [hins] at h2
        exact h2
      · rename_i w2 hins
        rw [hins] at h2
        exact h2
  · have h1 := Exec_valid w (.updateGatewayConfiguration c.ID now c.Channels) hv
    unfold UpdateGatewayConfiguration
    simp only
    split
    · rename_i e w1 hx
      rw [hx] at h1
      exact h1
    · rename_i r w1 hx
      rw [hx] at h1
      split
      · exact h1
      · split
        · exact h1
        · have h2 := Exec_valid w1 (.deleteGatewayConfigurationExtraChannels c.ID) h1
          split
          · rename_i e w2 hx2
            rw [hx2] at h2
            exact h2
          · rename_i r2 w2 hx2
            rw [hx2] at h2
            have h3 := insertExtraChannels_valid c.ID c.ExtraChannels w2 h2
            split
            · rename_i w3 e hins
              rw [hins] at h3
              exact h3
            · rename_i w3 hins
              rw [hins] at h3
              exact h3
  · have h1 := Exec_valid w (.deleteGatewayConfiguration id) hv
    unfold DeleteGatewayConfiguration
    split
    · rename_i e w1 hx
      rw [hx] at h1
      exact h1
    · rename_i r w1 hx
      rw [hx] at h1
      split
      · exact h1
      · split
        · exact h1
        · exact h1

/-! ### Migration -/

/-- C10 (migration of an empty legacy table).  When `channel_configuration` has
no row and the engine does not fail on the enumerating select, the migration
returns the nil map, which has zero entries, and no error; it issues the select
and nothing else, so no profile is created and no gateway row rewritten: the
store and the log are as before. -/
theorem migrate_empty_legacy_table (w : World) (clock : Nat → Time) (uuids : Nat → UUID)
    (hempty : w.store.channel_configuration = []) (hsel : w.fails = false) :
    MigrateChannelConfigurationToGatewayProfile w clock uuids =
      .returned (w.issue .selectChannelConfigurations) (none, none) ∧
    GoMap.len none = 0 ∧
    (w.issue .selectChannelConfigurations).store = w.store ∧
    (w.issue .selectChannelConfigurations).log = w.log ∧
    (w.issue .selectChannelConfigurations).issued = w.issued ++ [.selectChannelConfigurations] := by
  refine ⟨?_, rfl, rfl, rfl, rfl⟩
  unfold MigrateChannelConfigurationToGatewayProfile World.Select
  simp only [hsel, Bool.false_eq_true, if_false, hempty, List.map_nil, migrateLoop]

/-- Witness of C10: the migration of a clean database. -/
theorem migrate_empty_legacy_table_witness :
    cleanWorld.store.channel_configuration = [] ∧ cleanWorld.fails = false ∧
    (MigrateChannelConfigurationToGatewayProfile cleanWorld (fun _ => 3) (fun _ => exampleUUID) =
      .returned (cleanWorld.issue .selectChannelConfigurations) (none, none) ∧
    GoMap.len none = 0 ∧
    (cleanWorld.issue .selectChannelConfigurations).store = cleanWorld.store ∧
    (cleanWorld.issue .selectChannelConfigurations).log = cleanWorld.log ∧
    (cleanWorld.issue .selectChannelConfigurations).issued =
      cleanWorld.issued ++ [.selectChannelConfigurations]) :=
  ⟨rfl, rfl, migrate_empty_legacy_table cleanWorld (fun _ => 3) (fun _ => exampleUUID) rfl rfl⟩

theorem migrateLoop_nil_map (clock : Nat → Time) (uuids : Nat → UUID) (w w1 : World) (k : Nat)
    (cm : Int × String) (rest : List (Int × String)) (out : GoMap) :
    migrateLoop clock uuids w none k (cm :: rest) ≠ .returned w1 (out, none) := by
  intro h
  simp only [migrateLoop, GoMap.assign] at h
  split at h
  · simp at h
  · split at h
    · simp at h
    · split at h
      · simp at h
      · split at h
        · simp at h
        · simp at h

/-- Whenever the legacy table has a row, the migration does not return a mapping
without error: it returns an error or panics. -/
theorem migrate_nonempty_returns_no_mapping (w w1 : World) (clock : Nat → Time)
    (uuids : Nat → UUID) (out : GoMap) (hne : w.store.channel_configuration ≠ []) :
    MigrateChannelConfigurationToGatewayProfile w clock uuids ≠ .returned w1 (out, none) := by
  unfold MigrateChannelConfigurationToGatewayProfile World.Select
  simp only
  split
  · rename_i e w2 hx
    simp
  · rename_i rows w2 hx
    split at hx
    · cases hx
    · simp only [Prod.mk.injEq, Except.ok.injEq] at hx
      obtain ⟨hrows, _⟩ := hx
      cases hl : w.store.channel_configuration with
      | nil => exact absurd hl hne
      | cons r rest =>
        rw [← hrows, hl, List.map_cons]
        exact migrateLoop_nil_map _ _ _ _ _ _ _ _

/-- C5 at a failing input: with one legacy row and no failing statement the
migration creates the profile, repoints the gateway, and then panics on the
assignment into the nil map instead of returning a mapping with one entry. -/
theorem migrate_one_row_panics :
    ∃ w1, MigrateChannelConfigurationToGatewayProfile legacyWorld (fun _ => 3)
        (fun _ => exampleUUID) = .panicked w1 "assignment to entry in nil map" ∧
      w1.store.gateway_profile = [{ gateway_profile_id := exampleUUID.String, created_at := 3,
                                    updated_at := 3, channels := [0, 1, 2] }] ∧
      w1.store.gateway = [{ mac := "0102030405060708", channel_configuration_id := some 1,
                            gateway_profile_id := some exampleUUID.String }] :=
  ⟨_, rfl, by decide, by decide⟩

end Storage
